import Mathlib

/-!
Shallow embedding of the Stellar Studio factory contracts
(master-factory, token-factory, nft-factory, governance-factory).

Modelling conventions:
* `Address`, `WasmHash` and `Salt` are modelled as `Nat` (opaque identifiers);
  Soroban `String`s are modelled as their byte sequences (`List Nat`).
* Contract storage is a per-factory `State` structure; absent optional keys are
  `Option` fields, the temporary-tier per-block rate counters of the master
  factory are a total map `Nat → Nat` defaulting to `0` (matching
  `get(..).unwrap_or(0)` on the temporary tier).
* Each entry point is a pure function `State → args → Except (Abort × State) (α × State)`.
  A `panic_with_error` in the source is an `Except.error` carrying the error and
  the state as written up to the panic point (the intra-transaction view that a
  nested call would observe).  A failure of the external `deploy_v2`
  instantiation primitive is the `deployFailed` abort; the primitive itself is
  an explicit parameter `ext : Option Address` of the deploy entry points
  (`some a` = the host instantiates at address `a`, `none` = the host call fails).
* `commitState` is the durable (transactional) semantics: a Soroban invocation
  that panics commits nothing, so on `Except.error` the durable state is the
  pre-call state.  Reachability of durable states is defined from it.
* `require_auth` is the external authorization oracle; following the spec it is
  assumed to prove control of the supplied address, so it is a no-op here.
* u32 counters are `Nat`s; `checked_add` is modelled with the explicit
  `2 ^ 32` bound.  Events are notifications, not contract state, and are omitted.
-/

abbrev Address := Nat
abbrev WasmHash := Nat
abbrev Salt := Nat

/-- Checked u32 addition: `a.checked_add(b)` on `u32` values, `none` on overflow. -/
def checkedAddU32 (a b : Nat) : Option Nat :=
  if a + b < 2 ^ 32 then some (a + b) else none

/-- Durable (transactional) result of one top-level invocation: on success the
new state, on any panic the pre-call state (Soroban rolls back everything). -/
def commitState {ε σ α : Type} (s : σ) : Except (ε × σ) (α × σ) → σ
  | Except.ok (_, s1) => s1
  | Except.error _ => s

/-- Error kind of a threaded result, if it is an error. -/
def errOf {ε σ α : Type} : Except (ε × σ) (α × σ) → Option ε
  | Except.ok _ => none
  | Except.error (e, _) => some e

/-- Whether a threaded result is a success. -/
def isOkRes {ε σ α : Type} : Except (ε × σ) (α × σ) → Bool
  | Except.ok _ => true
  | Except.error _ => false

namespace TokenFactory

inductive TokenType
  | Allowlist
  | Blocklist
  | Capped
  | Pausable
  | Vault
deriving DecidableEq

structure TokenConfig where
  token_type : TokenType
  admin : Address
  manager : Address
  initial_supply : Int
  cap : Option Int
  name : List Nat
  symbol : List Nat
  decimals : Nat
  salt : Salt
  asset : Option Address
  decimals_offset : Option Nat
deriving DecidableEq

structure TokenInfo where
  address : Address
  token_type : TokenType
  admin : Address
  timestamp : Nat
  name : Option (List Nat)
deriving DecidableEq

inductive TokenFactoryError
  | NotAdmin
  | WasmNotSet
  | InvalidTokenType
  | InvalidConfig
  | InvalidName
  | InvalidSymbol
  | InvalidDecimals
  | NegativeSupply
  | MissingCap
  | CapTooLow
  | UnexpectedCap
  | AdminNotSet
  | CounterOverflow
  | InvalidCharacters
  | SupplyTooLarge
  | NoPendingAdmin
  | NotPendingAdmin
  | ContractPaused
deriving DecidableEq

/-- Abort of a token-factory invocation: a contract error raised via
`panic_with_error`, or failure of the external instantiation primitive. -/
inductive TFAbort
  | contractError : TokenFactoryError → TFAbort
  | deployFailed
deriving DecidableEq

/-- Instance-tier storage of the TokenFactory contract.  `Admin` is written by
the constructor and never removed, so it is a total field (`AdminNotSet` is
unreachable on deployed instances). -/
structure State where
  admin : Address
  pendingAdmin : Option Address
  allowlistWasm : Option WasmHash
  blocklistWasm : Option WasmHash
  cappedWasm : Option WasmHash
  pausableWasm : Option WasmHash
  vaultWasm : Option WasmHash
  deployedTokens : List TokenInfo
  tokenCount : Nat
  paused : Bool
deriving DecidableEq

/-- `__constructor(e, admin)`. -/
def initState (admin : Address) : State :=
  { admin := admin
    pendingAdmin := none
    allowlistWasm := none
    blocklistWasm := none
    cappedWasm := none
    pausableWasm := none
    vaultWasm := none
    deployedTokens := []
    tokenCount := 0
    paused := false }

def require_admin (s : State) (address : Address) : Except TokenFactoryError Unit :=
  if s.admin = address then Except.ok () else Except.error TokenFactoryError.NotAdmin

def get_wasm_for_type (s : State) (token_type : TokenType) : Except TokenFactoryError WasmHash :=
  let w := match token_type with
    | TokenType.Allowlist => s.allowlistWasm
    | TokenType.Blocklist => s.blocklistWasm
    | TokenType.Capped => s.cappedWasm
    | TokenType.Pausable => s.pausableWasm
    | TokenType.Vault => s.vaultWasm
  match w with
  | some h => Except.ok h
  | none => Except.error TokenFactoryError.WasmNotSet

/-- Bytes must contain no NUL and no control byte other than tab/newline/CR. -/
def validate_string_chars (s : List Nat) : Bool :=
  s.all (fun byte => !(byte == 0 || (byte < 32 && byte != 9 && byte != 10 && byte != 13)))

/-- Safe upper bound used by the validator: `i128::MAX / 2`. -/
def MAX_SUPPLY : Int := (2 ^ 127 - 1) / 2

/-- `validate_config` of the token factory, with the source's check order. -/
def validate_config (config : TokenConfig) : Except TokenFactoryError Unit :=
  if config.name.length = 0 ∨ config.name.length > 30 then
    Except.error TokenFactoryError.InvalidName
  else if config.symbol.length = 0 ∨ config.symbol.length > 12 then
    Except.error TokenFactoryError.InvalidSymbol
  else if validate_string_chars config.name = false then
    Except.error TokenFactoryError.InvalidName
  else if validate_string_chars config.symbol = false then
    Except.error TokenFactoryError.InvalidSymbol
  else if config.decimals > 18 then
    Except.error TokenFactoryError.InvalidDecimals
  else if config.initial_supply < 0 then
    Except.error TokenFactoryError.NegativeSupply
  else if config.initial_supply > MAX_SUPPLY then
    Except.error TokenFactoryError.SupplyTooLarge
  else
    match config.token_type with
    | TokenType.Capped =>
        if config.cap.isNone then
          Except.error TokenFactoryError.MissingCap
        else
          match config.cap with
          | some cap =>
              if config.initial_supply > cap then
                Except.error TokenFactoryError.CapTooLow
              else if cap > MAX_SUPPLY then
                Except.error TokenFactoryError.SupplyTooLarge
              else if config.asset.isSome ∨ config.decimals_offset.isSome then
                Except.error TokenFactoryError.InvalidConfig
              else
                Except.ok ()
          | none =>
              if config.asset.isSome ∨ config.decimals_offset.isSome then
                Except.error TokenFactoryError.InvalidConfig
              else
                Except.ok ()
    | TokenType.Vault =>
        if config.asset.isNone then
          Except.error TokenFactoryError.InvalidConfig
        else if config.decimals_offset.isNone then
          Except.error TokenFactoryError.InvalidConfig
        else if config.cap.isSome then
          Except.error TokenFactoryError.UnexpectedCap
        else
          Except.ok ()
    | _ =>
        if config.cap.isSome then
          Except.error TokenFactoryError.UnexpectedCap
        else if config.asset.isSome ∨ config.decimals_offset.isSome then
          Except.error TokenFactoryError.InvalidConfig
        else
          Except.ok ()

/-- Constructor-argument marshalling of `deploy_token` before the `deploy_v2`
call: the `Capped` branch unwraps `cap` (panic `MissingCap`), the `Vault`
branch unwraps `asset` and `decimals_offset` (panic `InvalidConfig`); both are
unreachable after `validate_config`. -/
def ctor_args_check (config : TokenConfig) : Except TokenFactoryError Unit :=
  match config.token_type with
  | TokenType.Capped =>
      match config.cap with
      | none => Except.error TokenFactoryError.MissingCap
      | some _ => Except.ok ()
  | TokenType.Vault =>
      match config.asset with
      | none => Except.error TokenFactoryError.InvalidConfig
      | some _ =>
          match config.decimals_offset with
          | none => Except.error TokenFactoryError.InvalidConfig
          | some _ => Except.ok ()
  | _ => Except.ok ()

/-- `deploy_token(e, deployer, config)`; `ts` is the ledger timestamp and `ext`
the outcome of the external `deploy_v2` instantiation primitive. -/
def deploy_token (s : State) (deployer : Address) (config : TokenConfig)
    (ts : Nat) (ext : Option Address) : Except (TFAbort × State) (Address × State) :=
  -- deployer.require_auth(): authorization oracle, assumed proven
  if s.paused then Except.error (TFAbort.contractError TokenFactoryError.ContractPaused, s)
  else
    match get_wasm_for_type s config.token_type with
    | Except.error e => Except.error (TFAbort.contractError e, s)
    | Except.ok _wasm_hash =>
      match validate_config config with
      | Except.error e => Except.error (TFAbort.contractError e, s)
      | Except.ok _ =>
        match ctor_args_check config with
        | Except.error e => Except.error (TFAbort.contractError e, s)
        | Except.ok _ =>
          match ext with
          | none => Except.error (TFAbort.deployFailed, s)
          | some token_address =>
            -- state updated only AFTER successful deployment
            match checkedAddU32 s.tokenCount 1 with
            | none => Except.error (TFAbort.contractError TokenFactoryError.CounterOverflow, s)
            | some new_count =>
              let token_info : TokenInfo :=
                { address := token_address
                  token_type := config.token_type
                  admin := config.admin
                  timestamp := ts
                  name := some config.name }
              let s1 := { s with deployedTokens := s.deployedTokens ++ [token_info] }
              let s2 := { s1 with tokenCount := new_count }
              Except.ok (token_address, s2)

def set_allowlist_wasm (s : State) (admin : Address) (wasm_hash : WasmHash) :
    Except (TokenFactoryError × State) (Unit × State) :=
  match require_admin s admin with
  | Except.error e => Except.error (e, s)
  | Except.ok _ => Except.ok ((), { s with allowlistWasm := some wasm_hash })

def set_blocklist_wasm (s : State) (admin : Address) (wasm_hash : WasmHash) :
    Except (TokenFactoryError × State) (Unit × State) :=
  match require_admin s admin with
  | Except.error e => Except.error (e, s)
  | Except.ok _ => Except.ok ((), { s with blocklistWasm := some wasm_hash })

def set_capped_wasm (s : State) (admin : Address) (wasm_hash : WasmHash) :
    Except (TokenFactoryError × State) (Unit × State) :=
  match require_admin s admin with
  | Except.error e => Except.error (e, s)
  | Except.ok _ => Except.ok ((), { s with cappedWasm := some wasm_hash })

def set_pausable_wasm (s : State) (admin : Address) (wasm_hash : WasmHash) :
    Except (TokenFactoryError × State) (Unit × State) :=
  match require_admin s admin with
  | Except.error e => Except.error (e, s)
  | Except.ok _ => Except.ok ((), { s with pausableWasm := some wasm_hash })

def set_vault_wasm (s : State) (admin : Address) (wasm_hash : WasmHash) :
    Except (TokenFactoryError × State) (Unit × State) :=
  match require_admin s admin with
  | Except.error e => Except.error (e, s)
  | Except.ok _ => Except.ok ((), { s with vaultWasm := some wasm_hash })

def get_deployed_tokens (s : State) : List TokenInfo :=
  s.deployedTokens

def get_token_count (s : State) : Nat :=
  s.tokenCount

def get_admin (s : State) : Address :=
  s.admin

def get_pending_admin (s : State) : Option Address :=
  s.pendingAdmin

def pause (s : State) (admin : Address) :
    Except (TokenFactoryError × State) (Unit × State) :=
  match require_admin s admin with
  | Except.error e => Except.error (e, s)
  | Except.ok _ => Except.ok ((), { s with paused := true })

def unpause (s : State) (admin : Address) :
    Except (TokenFactoryError × State) (Unit × State) :=
  match require_admin s admin with
  | Except.error e => Except.error (e, s)
  | Except.ok _ => Except.ok ((), { s with paused := false })

/-- `upgrade(e, new_wasm_hash)`: authorizes the stored admin, then pauses the
contract before swapping its own executable code (the code swap itself is not
part of the modelled storage). -/
def upgrade (s : State) (_new_wasm_hash : WasmHash) :
    Except (TokenFactoryError × State) (Unit × State) :=
  Except.ok ((), { s with paused := true })

def initiate_admin_transfer (s : State) (current_admin new_admin : Address) :
    Except (TokenFactoryError × State) (Unit × State) :=
  match require_admin s current_admin with
  | Except.error e => Except.error (e, s)
  | Except.ok _ => Except.ok ((), { s with pendingAdmin := some new_admin })

def accept_admin_transfer (s : State) (new_admin : Address) :
    Except (TokenFactoryError × State) (Unit × State) :=
  match s.pendingAdmin with
  | none => Except.error (TokenFactoryError.NoPendingAdmin, s)
  | some pending_admin =>
      if pending_admin ≠ new_admin then
        Except.error (TokenFactoryError.NotPendingAdmin, s)
      else
        Except.ok ((), { s with admin := new_admin, pendingAdmin := none })

def cancel_admin_transfer (s : State) (current_admin : Address) :
    Except (TokenFactoryError × State) (Unit × State) :=
  match require_admin s current_admin with
  | Except.error e => Except.error (e, s)
  | Except.ok _ => Except.ok ((), { s with pendingAdmin := none })

/-- Durable states reachable by any sequence of top-level TokenFactory
invocations, each committed transactionally. -/
inductive Reach : State → Prop
  | init (admin : Address) : Reach (initState admin)
  | set_allowlist (s : State) (a : Address) (h : WasmHash) :
      Reach s → Reach (commitState s (set_allowlist_wasm s a h))
  | set_blocklist (s : State) (a : Address) (h : WasmHash) :
      Reach s → Reach (commitState s (set_blocklist_wasm s a h))
  | set_capped (s : State) (a : Address) (h : WasmHash) :
      Reach s → Reach (commitState s (set_capped_wasm s a h))
  | set_pausable (s : State) (a : Address) (h : WasmHash) :
      Reach s → Reach (commitState s (set_pausable_wasm s a h))
  | set_vault (s : State) (a : Address) (h : WasmHash) :
      Reach s → Reach (commitState s (set_vault_wasm s a h))
  | deploy (s : State) (d : Address) (c : TokenConfig) (ts : Nat) (ext : Option Address) :
      Reach s → Reach (commitState s (deploy_token s d c ts ext))
  | pause (s : State) (a : Address) :
      Reach s → Reach (commitState s (pause s a))
  | unpause (s : State) (a : Address) :
      Reach s → Reach (commitState s (unpause s a))
  | upgrade (s : State) (h : WasmHash) :
      Reach s → Reach (commitState s (upgrade s h))
  | initiate (s : State) (a b : Address) :
      Reach s → Reach (commitState s (initiate_admin_transfer s a b))
  | accept (s : State) (a : Address) :
      Reach s → Reach (commitState s (accept_admin_transfer s a))
  | cancel (s : State) (a : Address) :
      Reach s → Reach (commitState s (cancel_admin_transfer s a))

end TokenFactory

namespace NFTFactory

inductive NFTType
  | Enumerable
  | Royalties
  | AccessControl
deriving DecidableEq

structure NFTConfig where
  nft_type : NFTType
  owner : Address
  admin : Option Address
  manager : Option Address
  salt : Salt
  name : Option (List Nat)
  symbol : Option (List Nat)
  base_uri : Option (List Nat)
deriving DecidableEq

structure NFTInfo where
  address : Address
  nft_type : NFTType
  owner : Address
  timestamp : Nat
  name : Option (List Nat)
  symbol : Option (List Nat)
  base_uri : Option (List Nat)
deriving DecidableEq

inductive NFTFactoryError
  | NotAdmin
  | WasmNotSet
  | InvalidNFTType
  | InvalidConfig
  | AdminNotSet
  | NoPendingAdmin
  | NotPendingAdmin
  | ContractPaused
  | CounterOverflow
deriving DecidableEq

/-- Abort of an NFT-factory invocation. -/
inductive NFTAbort
  | contractError : NFTFactoryError → NFTAbort
  | deployFailed
deriving DecidableEq

structure State where
  admin : Address
  pendingAdmin : Option Address
  enumerableWasm : Option WasmHash
  royaltiesWasm : Option WasmHash
  accessControlWasm : Option WasmHash
  deployedNFTs : List NFTInfo
  nftCount : Nat
  paused : Bool
deriving DecidableEq

/-- `__constructor(e, admin)`. -/
def initState (admin : Address) : State :=
  { admin := admin
    pendingAdmin := none
    enumerableWasm := none
    royaltiesWasm := none
    accessControlWasm := none
    deployedNFTs := []
    nftCount := 0
    paused := false }

def require_admin (s : State) (address : Address) : Except NFTFactoryError Unit :=
  if s.admin = address then Except.ok () else Except.error NFTFactoryError.NotAdmin

def get_wasm_for_type (s : State) (nft_type : NFTType) : Except NFTFactoryError WasmHash :=
  let w := match nft_type with
    | NFTType.Enumerable => s.enumerableWasm
    | NFTType.Royalties => s.royaltiesWasm
    | NFTType.AccessControl => s.accessControlWasm
  match w with
  | some h => Except.ok h
  | none => Except.error NFTFactoryError.WasmNotSet

/-- `validate_config` of the NFT factory. -/
def validate_config (config : NFTConfig) : Except NFTFactoryError Unit :=
  if config.nft_type = NFTType.Royalties ∧ (config.admin.isNone ∨ config.manager.isNone) then
    Except.error NFTFactoryError.InvalidConfig
  else if config.nft_type = NFTType.AccessControl ∧ config.admin.isNone then
    Except.error NFTFactoryError.InvalidConfig
  else if config.nft_type = NFTType.Enumerable ∧ (config.admin.isSome ∨ config.manager.isSome) then
    Except.error NFTFactoryError.InvalidConfig
  else
    Except.ok ()

/-- Byte sequence of the default collection name `"My Token"`. -/
def defaultNameBytes : List Nat := [77, 121, 32, 84, 111, 107, 101, 110]

/-- Byte sequence of the default collection symbol `"TKN"`. -/
def defaultSymbolBytes : List Nat := [84, 75, 78]

/-- Constructor-argument marshalling of `deploy_nft` before the `deploy_v2`
call: `Royalties` unwraps `admin` and `manager`, `AccessControl` unwraps
`admin` (panic `InvalidConfig`, unreachable after `validate_config`). -/
def nft_ctor_args_check (config : NFTConfig) : Except NFTFactoryError Unit :=
  match config.nft_type with
  | NFTType.Enumerable => Except.ok ()
  | NFTType.Royalties =>
      match config.admin with
      | none => Except.error NFTFactoryError.InvalidConfig
      | some _ =>
          match config.manager with
          | none => Except.error NFTFactoryError.InvalidConfig
          | some _ => Except.ok ()
  | NFTType.AccessControl =>
      match config.admin with
      | none => Except.error NFTFactoryError.InvalidConfig
      | some _ => Except.ok ()

/-- `deploy_nft(e, deployer, config)`. -/
def deploy_nft (s : State) (deployer : Address) (config : NFTConfig)
    (ts : Nat) (ext : Option Address) : Except (NFTAbort × State) (Address × State) :=
  -- deployer.require_auth(): authorization oracle, assumed proven
  if s.paused then Except.error (NFTAbort.contractError NFTFactoryError.ContractPaused, s)
  else
    match get_wasm_for_type s config.nft_type with
    | Except.error e => Except.error (NFTAbort.contractError e, s)
    | Except.ok _wasm_hash =>
      match validate_config config with
      | Except.error e => Except.error (NFTAbort.contractError e, s)
      | Except.ok _ =>
        let name := config.name.getD defaultNameBytes
        let symbol := config.symbol.getD defaultSymbolBytes
        match nft_ctor_args_check config with
        | Except.error e => Except.error (NFTAbort.contractError e, s)
        | Except.ok _ =>
          match ext with
          | none => Except.error (NFTAbort.deployFailed, s)
          | some nft_address =>
            let nft_info : NFTInfo :=
              { address := nft_address
                nft_type := config.nft_type
                owner := config.owner
                timestamp := ts
                name := some name
                symbol := some symbol
                base_uri := config.base_uri }
            -- the record is appended BEFORE the counter overflow check
            let s1 := { s with deployedNFTs := s.deployedNFTs ++ [nft_info] }
            match checkedAddU32 s1.nftCount 1 with
            | none => Except.error (NFTAbort.contractError NFTFactoryError.CounterOverflow, s1)
            | some new_count =>
              Except.ok (nft_address, { s1 with nftCount := new_count })

def set_enumerable_wasm (s : State) (admin : Address) (wasm_hash : WasmHash) :
    Except (NFTFactoryError × State) (Unit × State) :=
  match require_admin s admin with
  | Except.error e => Except.error (e, s)
  | Except.ok _ => Except.ok ((), { s with enumerableWasm := some wasm_hash })

def set_royalties_wasm (s : State) (admin : Address) (wasm_hash : WasmHash) :
    Except (NFTFactoryError × State) (Unit × State) :=
  match require_admin s admin with
  | Except.error e => Except.error (e, s)
  | Except.ok _ => Except.ok ((), { s with royaltiesWasm := some wasm_hash })

def set_access_control_wasm (s : State) (admin : Address) (wasm_hash : WasmHash) :
    Except (NFTFactoryError × State) (Unit × State) :=
  match require_admin s admin with
  | Except.error e => Except.error (e, s)
  | Except.ok _ => Except.ok ((), { s with accessControlWasm := some wasm_hash })

def get_deployed_nfts (s : State) : List NFTInfo :=
  s.deployedNFTs

def get_nft_count (s : State) : Nat :=
  s.nftCount

def get_admin (s : State) : Address :=
  s.admin

def get_pending_admin (s : State) : Option Address :=
  s.pendingAdmin

def pause (s : State) (admin : Address) :
    Except (NFTFactoryError × State) (Unit × State) :=
  match require_admin s admin with
  | Except.error e => Except.error (e, s)
  | Except.ok _ => Except.ok ((), { s with paused := true })

def unpause (s : State) (admin : Address) :
    Except (NFTFactoryError × State) (Unit × State) :=
  match require_admin s admin with
  | Except.error e => Except.error (e, s)
  | Except.ok _ => Except.ok ((), { s with paused := false })

/-- `upgrade(e, new_wasm_hash)`: authorizes the stored admin and pauses. -/
def upgrade (s : State) (_new_wasm_hash : WasmHash) :
    Except (NFTFactoryError × State) (Unit × State) :=
  Except.ok ((), { s with paused := true })

def initiate_admin_transfer (s : State) (current_admin new_admin : Address) :
    Except (NFTFactoryError × State) (Unit × State) :=
  match require_admin s current_admin with
  | Except.error e => Except.error (e, s)
  | Except.ok _ => Except.ok ((), { s with pendingAdmin := some new_admin })

def accept_admin_transfer (s : State) (new_admin : Address) :
    Except (NFTFactoryError × State) (Unit × State) :=
  match s.pendingAdmin with
  | none => Except.error (NFTFactoryError.NoPendingAdmin, s)
  | some pending_admin =>
      if pending_admin ≠ new_admin then
        Except.error (NFTFactoryError.NotPendingAdmin, s)
      else
        Except.ok ((), { s with admin := new_admin, pendingAdmin := none })

def cancel_admin_transfer (s : State) (current_admin : Address) :
    Except (NFTFactoryError × State) (Unit × State) :=
  match require_admin s current_admin with
  | Except.error e => Except.error (e, s)
  | Except.ok _ => Except.ok ((), { s with pendingAdmin := none })

/-- Durable states reachable by top-level NFTFactory invocations. -/
inductive Reach : State → Prop
  | init (admin : Address) : Reach (initState admin)
  | set_enumerable (s : State) (a : Address) (h : WasmHash) :
      Reach s → Reach (commitState s (set_enumerable_wasm s a h))
  | set_royalties (s : State) (a : Address) (h : WasmHash) :
      Reach s → Reach (commitState s (set_royalties_wasm s a h))
  | set_access_control (s : State) (a : Address) (h : WasmHash) :
      Reach s → Reach (commitState s (set_access_control_wasm s a h))
  | deploy (s : State) (d : Address) (c : NFTConfig) (ts : Nat) (ext : Option Address) :
      Reach s → Reach (commitState s (deploy_nft s d c ts ext))
  | pause (s : State) (a : Address) :
      Reach s → Reach (commitState s (pause s a))
  | unpause (s : State) (a : Address) :
      Reach s → Reach (commitState s (unpause s a))
  | upgrade (s : State) (h : WasmHash) :
      Reach s → Reach (commitState s (upgrade s h))
  | initiate (s : State) (a b : Address) :
      Reach s → Reach (commitState s (initiate_admin_transfer s a b))
  | accept (s : State) (a : Address) :
      Reach s → Reach (commitState s (accept_admin_transfer s a))
  | cancel (s : State) (a : Address) :
      Reach s → Reach (commitState s (cancel_admin_transfer s a))

end NFTFactory

namespace GovernanceFactory

inductive GovernanceType
  | MerkleVoting
  | Multisig
deriving DecidableEq

structure GovernanceConfig where
  governance_type : GovernanceType
  admin : Address
  root_hash : Option Nat
  owners : Option (List Address)
  threshold : Option Nat
  salt : Salt
deriving DecidableEq

structure GovernanceInfo where
  address : Address
  governance_type : GovernanceType
  admin : Address
  timestamp : Nat
  name : Option (List Nat)
deriving DecidableEq

inductive GovernanceFactoryError
  | NotAdmin
  | WasmNotSet
  | InvalidGovernanceType
  | InvalidConfig
  | AdminNotSet
  | NoPendingAdmin
  | NotPendingAdmin
  | ContractPaused
  | CounterOverflow
deriving DecidableEq

/-- Abort of a governance-factory invocation. -/
inductive GovAbort
  | contractError : GovernanceFactoryError → GovAbort
  | deployFailed
deriving DecidableEq

structure State where
  admin : Address
  pendingAdmin : Option Address
  merkleVotingWasm : Option WasmHash
  multisigWasm : Option WasmHash
  deployedGovernance : List GovernanceInfo
  governanceCount : Nat
  paused : Bool
deriving DecidableEq

/-- `__constructor(e, admin)`. -/
def initState (admin : Address) : State :=
  { admin := admin
    pendingAdmin := none
    merkleVotingWasm := none
    multisigWasm := none
    deployedGovernance := []
    governanceCount := 0
    paused := false }

def require_admin (s : State) (address : Address) : Except GovernanceFactoryError Unit :=
  if s.admin = address then Except.ok () else Except.error GovernanceFactoryError.NotAdmin

def get_wasm_for_type (s : State) (governance_type : GovernanceType) :
    Except GovernanceFactoryError WasmHash :=
  let w := match governance_type with
    | GovernanceType.MerkleVoting => s.merkleVotingWasm
    | GovernanceType.Multisig => s.multisigWasm
  match w with
  | some h => Except.ok h
  | none => Except.error GovernanceFactoryError.WasmNotSet

/-- `validate_config` of the governance factory. -/
def validate_config (config : GovernanceConfig) : Except GovernanceFactoryError Unit :=
  match config.governance_type with
  | GovernanceType.MerkleVoting =>
      if config.root_hash.isNone then
        Except.error GovernanceFactoryError.InvalidConfig
      else
        Except.ok ()
  | GovernanceType.Multisig =>
      if config.owners.isNone ∨ config.threshold.isNone then
        Except.error GovernanceFactoryError.InvalidConfig
      else
        match config.owners, config.threshold with
        | some owners, some threshold =>
            if threshold = 0 ∨ threshold > owners.length then
              Except.error GovernanceFactoryError.InvalidConfig
            else
              Except.ok ()
        | _, _ => Except.ok ()

/-- Constructor-argument marshalling of `deploy_governance` before the
`deploy_v2` call: `MerkleVoting` unwraps `root_hash`, `Multisig` unwraps
`owners` and `threshold` (panic `InvalidConfig`, unreachable after
`validate_config`). -/
def gov_ctor_args_check (config : GovernanceConfig) : Except GovernanceFactoryError Unit :=
  match config.governance_type with
  | GovernanceType.MerkleVoting =>
      match config.root_hash with
      | none => Except.error GovernanceFactoryError.InvalidConfig
      | some _ => Except.ok ()
  | GovernanceType.Multisig =>
      match config.owners with
      | none => Except.error GovernanceFactoryError.InvalidConfig
      | some _ =>
          match config.threshold with
          | none => Except.error GovernanceFactoryError.InvalidConfig
          | some _ => Except.ok ()

/-- `deploy_governance(e, deployer, config)`. -/
def deploy_governance (s : State) (deployer : Address) (config : GovernanceConfig)
    (ts : Nat) (ext : Option Address) : Except (GovAbort × State) (Address × State) :=
  -- deployer.require_auth(): authorization oracle, assumed proven
  if s.paused then Except.error (GovAbort.contractError GovernanceFactoryError.ContractPaused, s)
  else
    match get_wasm_for_type s config.governance_type with
    | Except.error e => Except.error (GovAbort.contractError e, s)
    | Except.ok _wasm_hash =>
      match validate_config config with
      | Except.error e => Except.error (GovAbort.contractError e, s)
      | Except.ok _ =>
        match gov_ctor_args_check config with
        | Except.error e => Except.error (GovAbort.contractError e, s)
        | Except.ok _ =>
          match ext with
          | none => Except.error (GovAbort.deployFailed, s)
          | some governance_address =>
            let governance_info : GovernanceInfo :=
              { address := governance_address
                governance_type := config.governance_type
                admin := config.admin
                timestamp := ts
                name := none }
            -- the record is appended BEFORE the counter overflow check
            let s1 := { s with deployedGovernance := s.deployedGovernance ++ [governance_info] }
            match checkedAddU32 s1.governanceCount 1 with
            | none =>
                Except.error (GovAbort.contractError GovernanceFactoryError.CounterOverflow, s1)
            | some new_count =>
              Except.ok (governance_address, { s1 with governanceCount := new_count })

def set_merkle_voting_wasm (s : State) (admin : Address) (wasm_hash : WasmHash) :
    Except (GovernanceFactoryError × State) (Unit × State) :=
  match require_admin s admin with
  | Except.error e => Except.error (e, s)
  | Except.ok _ => Except.ok ((), { s with merkleVotingWasm := some wasm_hash })

def set_multisig_wasm (s : State) (admin : Address) (wasm_hash : WasmHash) :
    Except (GovernanceFactoryError × State) (Unit × State) :=
  match require_admin s admin with
  | Except.error e => Except.error (e, s)
  | Except.ok _ => Except.ok ((), { s with multisigWasm := some wasm_hash })

def get_deployed_governance (s : State) : List GovernanceInfo :=
  s.deployedGovernance

def get_governance_count (s : State) : Nat :=
  s.governanceCount

def get_admin (s : State) : Address :=
  s.admin

def get_pending_admin (s : State) : Option Address :=
  s.pendingAdmin

def pause (s : State) (admin : Address) :
    Except (GovernanceFactoryError × State) (Unit × State) :=
  match require_admin s admin with
  | Except.error e => Except.error (e, s)
  | Except.ok _ => Except.ok ((), { s with paused := true })

def unpause (s : State) (admin : Address) :
    Except (GovernanceFactoryError × State) (Unit × State) :=
  match require_admin s admin with
  | Except.error e => Except.error (e, s)
  | Except.ok _ => Except.ok ((), { s with paused := false })

/-- `upgrade(e, new_wasm_hash)`: authorizes the stored admin and pauses. -/
def upgrade (s : State) (_new_wasm_hash : WasmHash) :
    Except (GovernanceFactoryError × State) (Unit × State) :=
  Except.ok ((), { s with paused := true })

def initiate_admin_transfer (s : State) (current_admin new_admin : Address) :
    Except (GovernanceFactoryError × State) (Unit × State) :=
  match require_admin s current_admin with
  | Except.error e => Except.error (e, s)
  | Except.ok _ => Except.ok ((), { s with pendingAdmin := some new_admin })

def accept_admin_transfer (s : State) (new_admin : Address) :
    Except (GovernanceFactoryError × State) (Unit × State) :=
  match s.pendingAdmin with
  | none => Except.error (GovernanceFactoryError.NoPendingAdmin, s)
  | some pending_admin =>
      if pending_admin ≠ new_admin then
        Except.error (GovernanceFactoryError.NotPendingAdmin, s)
      else
        Except.ok ((), { s with admin := new_admin, pendingAdmin := none })

def cancel_admin_transfer (s : State) (current_admin : Address) :
    Except (GovernanceFactoryError × State) (Unit × State) :=
  match require_admin s current_admin with
  | Except.error e => Except.error (e, s)
  | Except.ok _ => Except.ok ((), { s with pendingAdmin := none })

/-- Durable states reachable by top-level GovernanceFactory invocations. -/
inductive Reach : State → Prop
  | init (admin : Address) : Reach (initState admin)
  | set_merkle_voting (s : State) (a : Address) (h : WasmHash) :
      Reach s → Reach (commitState s (set_merkle_voting_wasm s a h))
  | set_multisig (s : State) (a : Address) (h : WasmHash) :
      Reach s → Reach (commitState s (set_multisig_wasm s a h))
  | deploy (s : State) (d : Address) (c : GovernanceConfig) (ts : Nat) (ext : Option Address) :
      Reach s → Reach (commitState s (deploy_governance s d c ts ext))
  | pause (s : State) (a : Address) :
      Reach s → Reach (commitState s (pause s a))
  | unpause (s : State) (a : Address) :
      Reach s → Reach (commitState s (unpause s a))
  | upgrade (s : State) (h : WasmHash) :
      Reach s → Reach (commitState s (upgrade s h))
  | initiate (s : State) (a b : Address) :
      Reach s → Reach (commitState s (initiate_admin_transfer s a b))
  | accept (s : State) (a : Address) :
      Reach s → Reach (commitState s (accept_admin_transfer s a))
  | cancel (s : State) (a : Address) :
      Reach s → Reach (commitState s (cancel_admin_transfer s a))

end GovernanceFactory

namespace MasterFactory

inductive FactoryType
  | Token
  | NFT
  | Governance
deriving DecidableEq

structure FactoryInfo where
  address : Address
  factory_type : FactoryType
  timestamp : Nat
deriving DecidableEq

inductive MasterFactoryError
  | NotAdmin
  | FactoryAlreadyDeployed
  | FactoryNotFound
  | AdminNotSet
  | Reentrancy
  | DuplicateSalt
  | RateLimitExceeded
  | NoPendingAdmin
  | NotPendingAdmin
  | ContractPaused
  | CounterOverflow
deriving DecidableEq

/-- Abort of a master-factory invocation. -/
inductive MFAbort
  | contractError : MasterFactoryError → MFAbort
  | deployFailed
deriving DecidableEq

/-- Storage of the MasterFactory contract.  `usedSalts` is the persistent-tier
set of `UsedSalts(salt)` keys; `deploymentsInBlock` is the temporary-tier map
of per-block counters, read with default `0` for absent keys. -/
structure State where
  admin : Address
  pendingAdmin : Option Address
  tokenFactory : Option Address
  nftFactory : Option Address
  governanceFactory : Option Address
  deployedFactories : List FactoryInfo
  deploying : Bool
  usedSalts : List Salt
  deploymentsInBlock : Nat → Nat
  paused : Bool

/-- `__constructor(e, admin)`. -/
def initState (admin : Address) : State :=
  { admin := admin
    pendingAdmin := none
    tokenFactory := none
    nftFactory := none
    governanceFactory := none
    deployedFactories := []
    deploying := false
    usedSalts := []
    deploymentsInBlock := fun _ => 0
    paused := false }

def require_admin (s : State) (address : Address) : Except MasterFactoryError Unit :=
  if s.admin = address then Except.ok () else Except.error MasterFactoryError.NotAdmin

def get_token_factory (s : State) : Option Address :=
  s.tokenFactory

def get_nft_factory (s : State) : Option Address :=
  s.nftFactory

def get_governance_factory (s : State) : Option Address :=
  s.governanceFactory

def get_deployed_factories (s : State) : List FactoryInfo :=
  s.deployedFactories

def get_admin (s : State) : Address :=
  s.admin

def get_pending_admin (s : State) : Option Address :=
  s.pendingAdmin

/-- `deploy_token_factory(e, deployer, wasm_hash, salt)`; `blk` is the current
ledger sequence number, `ts` the ledger timestamp, `ext` the outcome of the
external `deploy_v2` instantiation primitive. -/
def deploy_token_factory (s : State) (deployer : Address) (_wasm_hash : WasmHash)
    (salt : Salt) (blk ts : Nat) (ext : Option Address) :
    Except (MFAbort × State) (Address × State) :=
  -- deployer.require_auth(): authorization oracle, assumed proven
  match require_admin s deployer with
  | Except.error e => Except.error (MFAbort.contractError e, s)
  | Except.ok _ =>
    if s.paused then Except.error (MFAbort.contractError MasterFactoryError.ContractPaused, s)
    else if s.deploying then Except.error (MFAbort.contractError MasterFactoryError.Reentrancy, s)
    -- here the source sets Deploying := true; every later exit resets it, so the
    -- states below are flat updates of `s` (the same records as the source's
    -- sequential writes produce)
    else if s.deploymentsInBlock blk ≥ 10 then
      Except.error (MFAbort.contractError MasterFactoryError.RateLimitExceeded,
        { s with deploying := false })
    else if s.usedSalts.contains salt then
      Except.error (MFAbort.contractError MasterFactoryError.DuplicateSalt,
        { s with deploying := false })
    else if s.tokenFactory.isSome then
      Except.error (MFAbort.contractError MasterFactoryError.FactoryAlreadyDeployed,
        { s with deploying := false })
    else
      match ext with
      | none =>
          -- the instantiation primitive fails while Deploying is still true
          Except.error (MFAbort.deployFailed, { s with deploying := true })
      | some factory_address =>
        -- mark salt as used (only after the instantiation call succeeded)
        match checkedAddU32 (s.deploymentsInBlock blk) 1 with
        | none =>
            Except.error (MFAbort.contractError MasterFactoryError.CounterOverflow,
              { s with usedSalts := salt :: s.usedSalts, deploying := false })
        | some new_deployments_count =>
            Except.ok (factory_address,
              { s with
                usedSalts := salt :: s.usedSalts
                deploymentsInBlock :=
                  fun b => if b = blk then new_deployments_count else s.deploymentsInBlock b
                tokenFactory := some factory_address
                deployedFactories := s.deployedFactories ++
                  [({ address := factory_address, factory_type := FactoryType.Token,
                      timestamp := ts } : FactoryInfo)]
                deploying := false })

/-- `deploy_nft_factory(e, deployer, wasm_hash, salt)`. -/
def deploy_nft_factory (s : State) (deployer : Address) (_wasm_hash : WasmHash)
    (salt : Salt) (blk ts : Nat) (ext : Option Address) :
    Except (MFAbort × State) (Address × State) :=
  match require_admin s deployer with
  | Except.error e => Except.error (MFAbort.contractError e, s)
  | Except.ok _ =>
    if s.paused then Except.error (MFAbort.contractError MasterFactoryError.ContractPaused, s)
    else if s.deploying then Except.error (MFAbort.contractError MasterFactoryError.Reentrancy, s)
    -- here the source sets Deploying := true; every later exit resets it, so the
    -- states below are flat updates of `s` (the same records as the source's
    -- sequential writes produce)
    else if s.deploymentsInBlock blk ≥ 10 then
      Except.error (MFAbort.contractError MasterFactoryError.RateLimitExceeded,
        { s with deploying := false })
    else if s.usedSalts.contains salt then
      Except.error (MFAbort.contractError MasterFactoryError.DuplicateSalt,
        { s with deploying := false })
    else if s.nftFactory.isSome then
      Except.error (MFAbort.contractError MasterFactoryError.FactoryAlreadyDeployed,
        { s with deploying := false })
    else
      match ext with
      | none =>
          -- the instantiation primitive fails while Deploying is still true
          Except.error (MFAbort.deployFailed, { s with deploying := true })
      | some factory_address =>
        -- mark salt as used (only after the instantiation call succeeded)
        match checkedAddU32 (s.deploymentsInBlock blk) 1 with
        | none =>
            Except.error (MFAbort.contractError MasterFactoryError.CounterOverflow,
              { s with usedSalts := salt :: s.usedSalts, deploying := false })
        | some new_deployments_count =>
            Except.ok (factory_address,
              { s with
                usedSalts := salt :: s.usedSalts
                deploymentsInBlock :=
                  fun b => if b = blk then new_deployments_count else s.deploymentsInBlock b
                nftFactory := some factory_address
                deployedFactories := s.deployedFactories ++
                  [({ address := factory_address, factory_type := FactoryType.NFT,
                      timestamp := ts } : FactoryInfo)]
                deploying := false })

/-- `deploy_governance_factory(e, deployer, wasm_hash, salt)`. -/
def deploy_governance_factory (s : State) (deployer : Address) (_wasm_hash : WasmHash)
    (salt : Salt) (blk ts : Nat) (ext : Option Address) :
    Except (MFAbort × State) (Address × State) :=
  match require_admin s deployer with
  | Except.error e => Except.error (MFAbort.contractError e, s)
  | Except.ok _ =>
    if s.paused then Except.error (MFAbort.contractError MasterFactoryError.ContractPaused, s)
    else if s.deploying then Except.error (MFAbort.contractError MasterFactoryError.Reentrancy, s)
    -- here the source sets Deploying := true; every later exit resets it, so the
    -- states below are flat updates of `s` (the same records as the source's
    -- sequential writes produce)
    else if s.deploymentsInBlock blk ≥ 10 then
      Except.error (MFAbort.contractError MasterFactoryError.RateLimitExceeded,
        { s with deploying := false })
    else if s.usedSalts.contains salt then
      Except.error (MFAbort.contractError MasterFactoryError.DuplicateSalt,
        { s with deploying := false })
    else if s.governanceFactory.isSome then
      Except.error (MFAbort.contractError MasterFactoryError.FactoryAlreadyDeployed,
        { s with deploying := false })
    else
      match ext with
      | none =>
          -- the instantiation primitive fails while Deploying is still true
          Except.error (MFAbort.deployFailed, { s with deploying := true })
      | some factory_address =>
        -- mark salt as used (only after the instantiation call succeeded)
        match checkedAddU32 (s.deploymentsInBlock blk) 1 with
        | none =>
            Except.error (MFAbort.contractError MasterFactoryError.CounterOverflow,
              { s with usedSalts := salt :: s.usedSalts, deploying := false })
        | some new_deployments_count =>
            Except.ok (factory_address,
              { s with
                usedSalts := salt :: s.usedSalts
                deploymentsInBlock :=
                  fun b => if b = blk then new_deployments_count else s.deploymentsInBlock b
                governanceFactory := some factory_address
                deployedFactories := s.deployedFactories ++
                  [({ address := factory_address, factory_type := FactoryType.Governance,
                      timestamp := ts } : FactoryInfo)]
                deploying := false })

def pause (s : State) (admin : Address) :
    Except (MasterFactoryError × State) (Unit × State) :=
  match require_admin s admin with
  | Except.error e => Except.error (e, s)
  | Except.ok _ => Except.ok ((), { s with paused := true })

def unpause (s : State) (admin : Address) :
    Except (MasterFactoryError × State) (Unit × State) :=
  match require_admin s admin with
  | Except.error e => Except.error (e, s)
  | Except.ok _ => Except.ok ((), { s with paused := false })

/-- `upgrade(e, new_wasm_hash)`: authorizes the stored admin and pauses. -/
def upgrade (s : State) (_new_wasm_hash : WasmHash) :
    Except (MasterFactoryError × State) (Unit × State) :=
  Except.ok ((), { s with paused := true })

def initiate_admin_transfer (s : State) (current_admin new_admin : Address) :
    Except (MasterFactoryError × State) (Unit × State) :=
  match require_admin s current_admin with
  | Except.error e => Except.error (e, s)
  | Except.ok _ => Except.ok ((), { s with pendingAdmin := some new_admin })

def accept_admin_transfer (s : State) (new_admin : Address) :
    Except (MasterFactoryError × State) (Unit × State) :=
  match s.pendingAdmin with
  | none => Except.error (MasterFactoryError.NoPendingAdmin, s)
  | some pending_admin =>
      if pending_admin ≠ new_admin then
        Except.error (MasterFactoryError.NotPendingAdmin, s)
      else
        Except.ok ((), { s with admin := new_admin, pendingAdmin := none })

def cancel_admin_transfer (s : State) (current_admin : Address) :
    Except (MasterFactoryError × State) (Unit × State) :=
  match require_admin s current_admin with
  | Except.error e => Except.error (e, s)
  | Except.ok _ => Except.ok ((), { s with pendingAdmin := none })

/-- Durable states reachable by top-level MasterFactory invocations. -/
inductive Reach : State → Prop
  | init (admin : Address) : Reach (initState admin)
  | deploy_token (s : State) (d : Address) (w : WasmHash) (slt : Salt) (blk ts : Nat)
      (ext : Option Address) :
      Reach s → Reach (commitState s (deploy_token_factory s d w slt blk ts ext))
  | deploy_nft (s : State) (d : Address) (w : WasmHash) (slt : Salt) (blk ts : Nat)
      (ext : Option Address) :
      Reach s → Reach (commitState s (deploy_nft_factory s d w slt blk ts ext))
  | deploy_governance (s : State) (d : Address) (w : WasmHash) (slt : Salt) (blk ts : Nat)
      (ext : Option Address) :
      Reach s → Reach (commitState s (deploy_governance_factory s d w slt blk ts ext))
  | pause (s : State) (a : Address) :
      Reach s → Reach (commitState s (pause s a))
  | unpause (s : State) (a : Address) :
      Reach s → Reach (commitState s (unpause s a))
  | upgrade (s : State) (h : WasmHash) :
      Reach s → Reach (commitState s (upgrade s h))
  | initiate (s : State) (a b : Address) :
      Reach s → Reach (commitState s (initiate_admin_transfer s a b))
  | accept (s : State) (a : Address) :
      Reach s → Reach (commitState s (accept_admin_transfer s a))
  | cancel (s : State) (a : Address) :
      Reach s → Reach (commitState s (cancel_admin_transfer s a))

end MasterFactory

/-! Auxiliary definitions used by the claim statements: decidable bundles of
the validator's leading checks, and concrete states/configs for evaluation. -/

/-- The four string checks at the head of the token-factory `validate_config`
(name length, symbol length, name charset, symbol charset) all pass. -/
abbrev tf_string_checks_pass (c : TokenFactory.TokenConfig) : Prop :=
  ¬(c.name.length = 0 ∨ c.name.length > 30) ∧
  ¬(c.symbol.length = 0 ∨ c.symbol.length > 12) ∧
  ¬(TokenFactory.validate_string_chars c.name = false) ∧
  ¬(TokenFactory.validate_string_chars c.symbol = false)

/-- The checks of the token-factory `validate_config` that precede the
initial-supply checks all pass. -/
abbrev tf_presupply_checks_pass (c : TokenFactory.TokenConfig) : Prop :=
  tf_string_checks_pass c ∧ ¬(c.decimals > 18)

/-- All generic (non type-specific) checks of the token-factory
`validate_config` pass. -/
abbrev tf_generic_checks_pass (c : TokenFactory.TokenConfig) : Prop :=
  tf_presupply_checks_pass c ∧ ¬(c.initial_supply < 0) ∧
  ¬(c.initial_supply > TokenFactory.MAX_SUPPLY)

/-- A TokenFactory state with the Capped template registered. -/
def c7st : TokenFactory.State :=
  { TokenFactory.initState 0 with cappedWasm := some 7 }

/-- Capped config with `cap = none` and an empty name. -/
def c7cfg : TokenFactory.TokenConfig :=
  { token_type := TokenFactory.TokenType.Capped, admin := 1, manager := 2,
    initial_supply := 0, cap := none, name := [], symbol := [84], decimals := 7,
    salt := 0, asset := none, decimals_offset := none }

/-- Capped config with `initial_supply = 2_000_000` and `cap = 1_000_000`. -/
def c7capcfg : TokenFactory.TokenConfig :=
  { token_type := TokenFactory.TokenType.Capped, admin := 1, manager := 2,
    initial_supply := 2000000, cap := some 1000000, name := [84, 84], symbol := [84],
    decimals := 7, salt := 0, asset := none, decimals_offset := none }

/-- A TokenFactory state with the Pausable template registered. -/
def c10st : TokenFactory.State :=
  { TokenFactory.initState 0 with pausableWasm := some 7 }

/-- Pausable config with `decimals = 19` and an empty name. -/
def c10cfg : TokenFactory.TokenConfig :=
  { token_type := TokenFactory.TokenType.Pausable, admin := 1, manager := 2,
    initial_supply := 0, cap := none, name := [], symbol := [84], decimals := 19,
    salt := 0, asset := none, decimals_offset := none }

/-- Pausable config with valid name/symbol but `decimals = 19`. -/
def c10cfg2 : TokenFactory.TokenConfig :=
  { token_type := TokenFactory.TokenType.Pausable, admin := 1, manager := 2,
    initial_supply := 0, cap := none, name := [84, 84], symbol := [84], decimals := 19,
    salt := 0, asset := none, decimals_offset := none }

/-- A GovernanceFactory state with the Multisig template registered. -/
def c8st : GovernanceFactory.State :=
  { GovernanceFactory.initState 0 with multisigWasm := some 7 }

/-- Valid multisig config: two owners, threshold 2. -/
def c8cfg : GovernanceFactory.GovernanceConfig :=
  { governance_type := GovernanceFactory.GovernanceType.Multisig, admin := 1,
    root_hash := none, owners := some [5, 6], threshold := some 2, salt := 0 }

/-- Invalid multisig config: empty owner list. -/
def c8badcfg : GovernanceFactory.GovernanceConfig :=
  { governance_type := GovernanceFactory.GovernanceType.Multisig, admin := 1,
    root_hash := none, owners := some [], threshold := some 1, salt := 0 }

/-- MasterFactory state reached from a fresh instance (admin 0) by one
successful `deploy_token_factory` with salt 1 at block 0. -/
def c3s1 : MasterFactory.State :=
  commitState (MasterFactory.initState 0)
    (MasterFactory.deploy_token_factory (MasterFactory.initState 0) 0 7 1 0 0 (some 100))

/-- MasterFactory state with salt 1 already in the used-salt set. -/
def c3used : MasterFactory.State :=
  { MasterFactory.initState 0 with usedSalts := [1] }

/-- MasterFactory states after one, two and three successful same-window
deployments (token, then NFT, then governance factory, salts 1, 2, 3,
all at block 0). -/
def c4s1 : MasterFactory.State :=
  commitState (MasterFactory.initState 0)
    (MasterFactory.deploy_token_factory (MasterFactory.initState 0) 0 7 1 0 0 (some 100))

def c4s2 : MasterFactory.State :=
  commitState c4s1 (MasterFactory.deploy_nft_factory c4s1 0 7 2 0 0 (some 101))

def c4s3 : MasterFactory.State :=
  commitState c4s2 (MasterFactory.deploy_governance_factory c4s2 0 7 3 0 0 (some 102))

/-- MasterFactory state whose block-0 window counter already reads 10. -/
def c4rate : MasterFactory.State :=
  { MasterFactory.initState 0 with deploymentsInBlock := fun b => if b = 0 then 10 else 0 }

/-- MasterFactory state with the reentrancy flag set. -/
def c2s1 : MasterFactory.State :=
  { MasterFactory.initState 0 with deploying := true }

/-- Paused MasterFactory state. -/
def c5pstate : MasterFactory.State :=
  { MasterFactory.initState 0 with paused := true }

/-- Paused TokenFactory state. -/
def c5tfpaused : TokenFactory.State :=
  { TokenFactory.initState 0 with paused := true }

/-- Paused NFTFactory state. -/
def c5nftpaused : NFTFactory.State :=
  { NFTFactory.initState 0 with paused := true }

/-- Paused GovernanceFactory state. -/
def c5govpaused : GovernanceFactory.State :=
  { GovernanceFactory.initState 0 with paused := true }

/-- An arbitrary token config used where deployment is expected to fail before
validation. -/
def c5cfg : TokenFactory.TokenConfig :=
  { token_type := TokenFactory.TokenType.Pausable, admin := 1, manager := 2,
    initial_supply := 0, cap := none, name := [84], symbol := [84], decimals := 7,
    salt := 0, asset := none, decimals_offset := none }

/-- An arbitrary NFT config (Enumerable, no admin/manager). -/
def c5nftcfg : NFTFactory.NFTConfig :=
  { nft_type := NFTFactory.NFTType.Enumerable, owner := 1, admin := none,
    manager := none, salt := 0, name := none, symbol := none, base_uri := none }

/-- An arbitrary governance config (MerkleVoting with a root hash). -/
def c5govcfg : GovernanceFactory.GovernanceConfig :=
  { governance_type := GovernanceFactory.GovernanceType.MerkleVoting, admin := 1,
    root_hash := some 3, owners := none, threshold := none, salt := 0 }

/-- MasterFactory state that is both paused and mid-deploy (reentrancy flag). -/
def c9state : MasterFactory.State :=
  { MasterFactory.initState 0 with deploying := true, paused := true }

/-! Characterization lemmas for the per-type factory deploys. -/

theorem tf_deploy_err_state (s : TokenFactory.State) (d : Address)
    (c : TokenFactory.TokenConfig) (ts : Nat) (ext : Option Address)
    (e : TokenFactory.TFAbort) (s1 : TokenFactory.State)
    (h : TokenFactory.deploy_token s d c ts ext = Except.error (e, s1)) :
    s1 = s := by
  unfold TokenFactory.deploy_token at h
  repeat' split at h
  all_goals simp_all

theorem tf_deploy_ok_shape (s : TokenFactory.State) (d : Address)
    (c : TokenFactory.TokenConfig) (ts : Nat) (ext : Option Address)
    (a : Address) (s1 : TokenFactory.State)
    (h : TokenFactory.deploy_token s d c ts ext = Except.ok (a, s1)) :
    ext = some a ∧
    s1.tokenCount = s.tokenCount + 1 ∧
    s1.deployedTokens = s.deployedTokens ++
      [{ address := a, token_type := c.token_type, admin := c.admin,
         timestamp := ts, name := some c.name }] := by
  unfold TokenFactory.deploy_token at h
  repeat' split at h
  all_goals simp_all [checkedAddU32]
  obtain ⟨h1, h2⟩ := h
  subst h2
  subst h1
  simp

theorem nft_deploy_err_state (s : NFTFactory.State) (d : Address)
    (c : NFTFactory.NFTConfig) (ts : Nat) (ext : Option Address)
    (e : NFTFactory.NFTAbort) (s1 : NFTFactory.State)
    (h : NFTFactory.deploy_nft s d c ts ext = Except.error (e, s1)) :
    e ≠ NFTFactory.NFTAbort.contractError NFTFactory.NFTFactoryError.CounterOverflow →
      s1 = s := by
  unfold NFTFactory.deploy_nft at h
  repeat' split at h
  all_goals simp_all
  split at h
  all_goals simp_all

theorem nft_deploy_ok_shape (s : NFTFactory.State) (d : Address)
    (c : NFTFactory.NFTConfig) (ts : Nat) (ext : Option Address)
    (a : Address) (s1 : NFTFactory.State)
    (h : NFTFactory.deploy_nft s d c ts ext = Except.ok (a, s1)) :
    ext = some a ∧
    s1.nftCount = s.nftCount + 1 ∧
    s1.deployedNFTs.length = s.deployedNFTs.length + 1 := by
  unfold NFTFactory.deploy_nft at h
  repeat' split at h
  all_goals simp_all [checkedAddU32]
  all_goals (try (split at h <;> simp_all))
  obtain ⟨h1, h2⟩ := h
  subst h2
  subst h1
  simp

theorem gov_deploy_err_state (s : GovernanceFactory.State) (d : Address)
    (c : GovernanceFactory.GovernanceConfig) (ts : Nat) (ext : Option Address)
    (e : GovernanceFactory.GovAbort) (s1 : GovernanceFactory.State)
    (h : GovernanceFactory.deploy_governance s d c ts ext = Except.error (e, s1)) :
    e ≠ GovernanceFactory.GovAbort.contractError
        GovernanceFactory.GovernanceFactoryError.CounterOverflow →
      s1 = s := by
  unfold GovernanceFactory.deploy_governance at h
  repeat' split at h
  all_goals simp_all
  split at h
  all_goals simp_all

theorem gov_deploy_ok_shape (s : GovernanceFactory.State) (d : Address)
    (c : GovernanceFactory.GovernanceConfig) (ts : Nat) (ext : Option Address)
    (a : Address) (s1 : GovernanceFactory.State)
    (h : GovernanceFactory.deploy_governance s d c ts ext = Except.ok (a, s1)) :
    ext = some a ∧
    s1.governanceCount = s.governanceCount + 1 ∧
    s1.deployedGovernance.length = s.deployedGovernance.length + 1 := by
  unfold GovernanceFactory.deploy_governance at h
  repeat' split at h
  all_goals simp_all [checkedAddU32]
  all_goals (try (split at h <;> simp_all))
  obtain ⟨h1, h2⟩ := h
  subst h2
  subst h1
  simp

/-! Claim C1: counter consistency on the three per-type factories. -/

/-- C1: in every durable state reachable by any sequence of factory operations,
the stored deployment counter equals the length of the deployed-records
sequence: `get_token_count = (get_deployed_tokens).length` on the TokenFactory,
`get_nft_count = (get_deployed_nfts).length` on the NFTFactory, and
`get_governance_count = (get_deployed_governance).length` on the
GovernanceFactory, even though the count is stored under a separate key. -/
theorem c1_counter_consistency :
    (∀ s : TokenFactory.State, TokenFactory.Reach s →
      TokenFactory.get_token_count s = (TokenFactory.get_deployed_tokens s).length) ∧
    (∀ s : NFTFactory.State, NFTFactory.Reach s →
      NFTFactory.get_nft_count s = (NFTFactory.get_deployed_nfts s).length) ∧
    (∀ s : GovernanceFactory.State, GovernanceFactory.Reach s →
      GovernanceFactory.get_governance_count s = (GovernanceFactory.get_deployed_governance s).length) := by
  refine ⟨?_, ?_, ?_⟩
  · intro s hs
    induction hs with
    | init a => rfl
    | set_allowlist s a h _ ih =>
        simp only [TokenFactory.set_allowlist_wasm, TokenFactory.require_admin]
        split <;> simp_all [commitState, TokenFactory.get_token_count,
          TokenFactory.get_deployed_tokens]
    | set_blocklist s a h _ ih =>
        simp only [TokenFactory.set_blocklist_wasm, TokenFactory.require_admin]
        split <;> simp_all [commitState, TokenFactory.get_token_count,
          TokenFactory.get_deployed_tokens]
    | set_capped s a h _ ih =>
        simp only [TokenFactory.set_capped_wasm, TokenFactory.require_admin]
        split <;> simp_all [commitState, TokenFactory.get_token_count,
          TokenFactory.get_deployed_tokens]
    | set_pausable s a h _ ih =>
        simp only [TokenFactory.set_pausable_wasm, TokenFactory.require_admin]
        split <;> simp_all [commitState, TokenFactory.get_token_count,
          TokenFactory.get_deployed_tokens]
    | set_vault s a h _ ih =>
        simp only [TokenFactory.set_vault_wasm, TokenFactory.require_admin]
        split <;> simp_all [commitState, TokenFactory.get_token_count,
          TokenFactory.get_deployed_tokens]
    | deploy s d c ts ext _ ih =>
        cases hres : TokenFactory.deploy_token s d c ts ext with
        | error p =>
            simpa [commitState] using ih
        | ok p =>
            obtain ⟨a, s1⟩ := p
            obtain ⟨_, hcount, hlist⟩ := tf_deploy_ok_shape s d c ts ext a s1 hres
            simp_all [commitState, TokenFactory.get_token_count,
              TokenFactory.get_deployed_tokens]
    | pause s a _ ih =>
        simp only [TokenFactory.pause, TokenFactory.require_admin]
        split <;> simp_all [commitState, TokenFactory.get_token_count,
          TokenFactory.get_deployed_tokens]
    | unpause s a _ ih =>
        simp only [TokenFactory.unpause, TokenFactory.require_admin]
        split <;> simp_all [commitState, TokenFactory.get_token_count,
          TokenFactory.get_deployed_tokens]
    | upgrade s h _ ih =>
        simpa [commitState, TokenFactory.upgrade, TokenFactory.get_token_count,
          TokenFactory.get_deployed_tokens] using ih
    | initiate s a b _ ih =>
        simp only [TokenFactory.initiate_admin_transfer, TokenFactory.require_admin]
        split <;> simp_all [commitState, TokenFactory.get_token_count,
          TokenFactory.get_deployed_tokens]
    | accept s a _ ih =>
        simp only [TokenFactory.accept_admin_transfer]
        split <;> try split
        all_goals simp_all [commitState, TokenFactory.get_token_count,
          TokenFactory.get_deployed_tokens]
    | cancel s a _ ih =>
        simp only [TokenFactory.cancel_admin_transfer, TokenFactory.require_admin]
        split <;> simp_all [commitState, TokenFactory.get_token_count,
          TokenFactory.get_deployed_tokens]
  · intro s hs
    induction hs with
    | init a => rfl
    | set_enumerable s a h _ ih =>
        simp only [NFTFactory.set_enumerable_wasm, NFTFactory.require_admin]
        split <;> simp_all [commitState, NFTFactory.get_nft_count,
          NFTFactory.get_deployed_nfts]
    | set_royalties s a h _ ih =>
        simp only [NFTFactory.set_royalties_wasm, NFTFactory.require_admin]
        split <;> simp_all [commitState, NFTFactory.get_nft_count,
          NFTFactory.get_deployed_nfts]
    | set_access_control s a h _ ih =>
        simp only [NFTFactory.set_access_control_wasm, NFTFactory.require_admin]
        split <;> simp_all [commitState, NFTFactory.get_nft_count,
          NFTFactory.get_deployed_nfts]
    | deploy s d c ts ext _ ih =>
        cases hres : NFTFactory.deploy_nft s d c ts ext with
        | error p =>
            simpa [commitState] using ih
        | ok p =>
            obtain ⟨a, s1⟩ := p
            obtain ⟨_, hcount, hlist⟩ := nft_deploy_ok_shape s d c ts ext a s1 hres
            simp_all [commitState, NFTFactory.get_nft_count,
              NFTFactory.get_deployed_nfts]
    | pause s a _ ih =>
        simp only [NFTFactory.pause, NFTFactory.require_admin]
        split <;> simp_all [commitState, NFTFactory.get_nft_count,
          NFTFactory.get_deployed_nfts]
    | unpause s a _ ih =>
        simp only [NFTFactory.unpause, NFTFactory.require_admin]
        split <;> simp_all [commitState, NFTFactory.get_nft_count,
          NFTFactory.get_deployed_nfts]
    | upgrade s h _ ih =>
        simpa [commitState, NFTFactory.upgrade, NFTFactory.get_nft_count,
          NFTFactory.get_deployed_nfts] using ih
    | initiate s a b _ ih =>
        simp only [NFTFactory.initiate_admin_transfer, NFTFactory.require_admin]
        split <;> simp_all [commitState, NFTFactory.get_nft_count,
          NFTFactory.get_deployed_nfts]
    | accept s a _ ih =>
        simp only [NFTFactory.accept_admin_transfer]
        split <;> try split
        all_goals simp_all [commitState, NFTFactory.get_nft_count,
          NFTFactory.get_deployed_nfts]
    | cancel s a _ ih =>
        simp only [NFTFactory.cancel_admin_transfer, NFTFactory.require_admin]
        split <;> simp_all [commitState, NFTFactory.get_nft_count,
          NFTFactory.get_deployed_nfts]
  · intro s hs
    induction hs with
    | init a => rfl
    | set_merkle_voting s a h _ ih =>
        simp only [GovernanceFactory.set_merkle_voting_wasm, GovernanceFactory.require_admin]
        split <;> simp_all [commitState, GovernanceFactory.get_governance_count,
          GovernanceFactory.get_deployed_governance]
    | set_multisig s a h _ ih =>
        simp only [GovernanceFactory.set_multisig_wasm, GovernanceFactory.require_admin]
        split <;> simp_all [commitState, GovernanceFactory.get_governance_count,
          GovernanceFactory.get_deployed_governance]
    | deploy s d c ts ext _ ih =>
        cases hres : GovernanceFactory.deploy_governance s d c ts ext with
        | error p =>
            simpa [commitState] using ih
        | ok p =>
            obtain ⟨a, s1⟩ := p
            obtain ⟨_, hcount, hlist⟩ := gov_deploy_ok_shape s d c ts ext a s1 hres
            simp_all [commitState, GovernanceFactory.get_governance_count,
              GovernanceFactory.get_deployed_governance]
    | pause s a _ ih =>
        simp only [GovernanceFactory.pause, GovernanceFactory.require_admin]
        split <;> simp_all [commitState, GovernanceFactory.get_governance_count,
          GovernanceFactory.get_deployed_governance]
    | unpause s a _ ih =>
        simp only [GovernanceFactory.unpause, GovernanceFactory.require_admin]
        split <;> simp_all [commitState, GovernanceFactory.get_governance_count,
          GovernanceFactory.get_deployed_governance]
    | upgrade s h _ ih =>
        simpa [commitState, GovernanceFactory.upgrade, GovernanceFactory.get_governance_count,
          GovernanceFactory.get_deployed_governance] using ih
    | initiate s a b _ ih =>
        simp only [GovernanceFactory.initiate_admin_transfer, GovernanceFactory.require_admin]
        split <;> simp_all [commitState, GovernanceFactory.get_governance_count,
          GovernanceFactory.get_deployed_governance]
    | accept s a _ ih =>
        simp only [GovernanceFactory.accept_admin_transfer]
        split <;> try split
        all_goals simp_all [commitState, GovernanceFactory.get_governance_count,
          GovernanceFactory.get_deployed_governance]
    | cancel s a _ ih =>
        simp only [GovernanceFactory.cancel_admin_transfer, GovernanceFactory.require_admin]
        split <;> simp_all [commitState, GovernanceFactory.get_governance_count,
          GovernanceFactory.get_deployed_governance]

/-- C1 witness: the invariant evaluated on concrete reachable states. -/
theorem c1_counter_consistency_witness :
    TokenFactory.get_token_count (TokenFactory.initState 0) =
      (TokenFactory.get_deployed_tokens (TokenFactory.initState 0)).length ∧
    NFTFactory.get_nft_count (NFTFactory.initState 0) =
      (NFTFactory.get_deployed_nfts (NFTFactory.initState 0)).length ∧
    GovernanceFactory.get_governance_count (GovernanceFactory.initState 0) =
      (GovernanceFactory.get_deployed_governance (GovernanceFactory.initState 0)).length :=
  ⟨c1_counter_consistency.1 _ (TokenFactory.Reach.init 0),
   c1_counter_consistency.2.1 _ (NFTFactory.Reach.init 0),
   c1_counter_consistency.2.2 _ (GovernanceFactory.Reach.init 0)⟩


/-- Record-update eta: resetting an already-false `deploying` flag is the
identity on MasterFactory states. -/
theorem mf_deploying_false_eq (s : MasterFactory.State) (h : s.deploying = false) :
    ({ s with deploying := false } : MasterFactory.State) = s := by
  cases s
  simp_all

/-! Characterization lemmas for the MasterFactory deploys. -/

theorem mf_token_ok_shape (s : MasterFactory.State) (d : Address) (w : WasmHash) (slt : Salt)
    (blk ts : Nat) (ext : Option Address) (a : Address) (s1 : MasterFactory.State)
    (h : MasterFactory.deploy_token_factory s d w slt blk ts ext = Except.ok (a, s1)) :
    s.admin = d ∧ s.paused = false ∧ s.deploying = false ∧
    s.deploymentsInBlock blk < 10 ∧ s.usedSalts.contains slt = false ∧
    s.tokenFactory.isSome = false ∧ ext = some a ∧
    s1.admin = s.admin ∧ s1.pendingAdmin = s.pendingAdmin ∧
    s1.tokenFactory = some a ∧ s1.nftFactory = s.nftFactory ∧
    s1.governanceFactory = s.governanceFactory ∧
    s1.deployedFactories = s.deployedFactories ++
      [{ address := a, factory_type := MasterFactory.FactoryType.Token, timestamp := ts }] ∧
    s1.deploying = false ∧ s1.usedSalts = slt :: s.usedSalts ∧
    s1.paused = s.paused ∧
    s1.deploymentsInBlock =
      (fun b => if b = blk then s.deploymentsInBlock blk + 1 else s.deploymentsInBlock b) := by
  unfold MasterFactory.deploy_token_factory MasterFactory.require_admin at h
  iterate 8 (all_goals (try split at h))
  all_goals simp_all [checkedAddU32]
  obtain ⟨h1, h2⟩ := h
  subst h2
  subst h1
  simp_all

theorem mf_token_err_state (s : MasterFactory.State) (d : Address) (w : WasmHash) (slt : Salt)
    (blk ts : Nat) (ext : Option Address) (e : MasterFactory.MFAbort)
    (s1 : MasterFactory.State)
    (h : MasterFactory.deploy_token_factory s d w slt blk ts ext = Except.error (e, s1)) :
    e ≠ MasterFactory.MFAbort.contractError MasterFactory.MasterFactoryError.CounterOverflow →
    e ≠ MasterFactory.MFAbort.deployFailed →
      s1 = s := by
  intro hco hdf
  unfold MasterFactory.deploy_token_factory MasterFactory.require_admin at h
  iterate 8 (all_goals (try split at h))
  all_goals (try (simp at h))
  all_goals (obtain ⟨h1, h2⟩ := h; subst h2)
  all_goals (cases s; simp_all)

theorem mf_token_paused (s : MasterFactory.State) (d : Address) (w : WasmHash) (slt : Salt)
    (blk ts : Nat) (ext : Option Address) (hadm : s.admin = d) (hp : s.paused = true) :
    MasterFactory.deploy_token_factory s d w slt blk ts ext =
      Except.error (MasterFactory.MFAbort.contractError
        MasterFactory.MasterFactoryError.ContractPaused, s) := by
  unfold MasterFactory.deploy_token_factory MasterFactory.require_admin
  simp [hadm, hp]

theorem mf_token_reentrant (s : MasterFactory.State) (d : Address) (w : WasmHash) (slt : Salt)
    (blk ts : Nat) (ext : Option Address) (hadm : s.admin = d) (hp : s.paused = false)
    (hdep : s.deploying = true) :
    MasterFactory.deploy_token_factory s d w slt blk ts ext =
      Except.error (MasterFactory.MFAbort.contractError
        MasterFactory.MasterFactoryError.Reentrancy, s) := by
  unfold MasterFactory.deploy_token_factory MasterFactory.require_admin
  simp [hadm, hp, hdep]

theorem mf_token_rate_limited (s : MasterFactory.State) (d : Address) (w : WasmHash)
    (slt : Salt) (blk ts : Nat) (ext : Option Address) (hadm : s.admin = d)
    (hp : s.paused = false) (hdep : s.deploying = false)
    (hcnt : s.deploymentsInBlock blk ≥ 10) :
    MasterFactory.deploy_token_factory s d w slt blk ts ext =
      Except.error (MasterFactory.MFAbort.contractError
        MasterFactory.MasterFactoryError.RateLimitExceeded, s) := by
  unfold MasterFactory.deploy_token_factory MasterFactory.require_admin
  cases s
  simp_all

theorem mf_token_dup_salt (s : MasterFactory.State) (d : Address) (w : WasmHash)
    (slt : Salt) (blk ts : Nat) (ext : Option Address) (hadm : s.admin = d)
    (hp : s.paused = false) (hdep : s.deploying = false)
    (hcnt : s.deploymentsInBlock blk < 10) (hsalt : s.usedSalts.contains slt = true) :
    MasterFactory.deploy_token_factory s d w slt blk ts ext =
      Except.error (MasterFactory.MFAbort.contractError
        MasterFactory.MasterFactoryError.DuplicateSalt, s) := by
  have hns : ¬(s.deploymentsInBlock blk ≥ 10) := Nat.not_le.mpr hcnt
  unfold MasterFactory.deploy_token_factory MasterFactory.require_admin
  cases s
  simp_all

theorem mf_token_instfail (s : MasterFactory.State) (d : Address) (w : WasmHash)
    (slt : Salt) (blk ts : Nat) (e : MasterFactory.MFAbort) (s1 : MasterFactory.State)
    (h : MasterFactory.deploy_token_factory s d w slt blk ts none = Except.error (e, s1)) :
    s1.usedSalts = s.usedSalts ∧ s1.deploymentsInBlock = s.deploymentsInBlock ∧
    s1.deployedFactories = s.deployedFactories ∧ s1.tokenFactory = s.tokenFactory := by
  unfold MasterFactory.deploy_token_factory MasterFactory.require_admin at h
  iterate 8 (all_goals (try split at h))
  all_goals (try (simp at h))
  all_goals (first
    | contradiction
    | (obtain ⟨h1, h2⟩ := h; subst h2; simp))

theorem mf_nft_ok_shape (s : MasterFactory.State) (d : Address) (w : WasmHash) (slt : Salt)
    (blk ts : Nat) (ext : Option Address) (a : Address) (s1 : MasterFactory.State)
    (h : MasterFactory.deploy_nft_factory s d w slt blk ts ext = Except.ok (a, s1)) :
    s.admin = d ∧ s.paused = false ∧ s.deploying = false ∧
    s.deploymentsInBlock blk < 10 ∧ s.usedSalts.contains slt = false ∧
    s.nftFactory.isSome = false ∧ ext = some a ∧
    s1.admin = s.admin ∧ s1.pendingAdmin = s.pendingAdmin ∧
    s1.nftFactory = some a ∧ s1.tokenFactory = s.tokenFactory ∧
    s1.governanceFactory = s.governanceFactory ∧
    s1.deployedFactories = s.deployedFactories ++
      [{ address := a, factory_type := MasterFactory.FactoryType.NFT, timestamp := ts }] ∧
    s1.deploying = false ∧ s1.usedSalts = slt :: s.usedSalts ∧
    s1.paused = s.paused ∧
    s1.deploymentsInBlock =
      (fun b => if b = blk then s.deploymentsInBlock blk + 1 else s.deploymentsInBlock b) := by
  unfold MasterFactory.deploy_nft_factory MasterFactory.require_admin at h
  iterate 8 (all_goals (try split at h))
  all_goals simp_all [checkedAddU32]
  obtain ⟨h1, h2⟩ := h
  subst h2
  subst h1
  simp_all

theorem mf_nft_err_state (s : MasterFactory.State) (d : Address) (w : WasmHash) (slt : Salt)
    (blk ts : Nat) (ext : Option Address) (e : MasterFactory.MFAbort)
    (s1 : MasterFactory.State)
    (h : MasterFactory.deploy_nft_factory s d w slt blk ts ext = Except.error (e, s1)) :
    e ≠ MasterFactory.MFAbort.contractError MasterFactory.MasterFactoryError.CounterOverflow →
    e ≠ MasterFactory.MFAbort.deployFailed →
      s1 = s := by
  intro hco hdf
  unfold MasterFactory.deploy_nft_factory MasterFactory.require_admin at h
  iterate 8 (all_goals (try split at h))
  all_goals (try (simp at h))
  all_goals (obtain ⟨h1, h2⟩ := h; subst h2)
  all_goals (cases s; simp_all)

theorem mf_nft_paused (s : MasterFactory.State) (d : Address) (w : WasmHash) (slt : Salt)
    (blk ts : Nat) (ext : Option Address) (hadm : s.admin = d) (hp : s.paused = true) :
    MasterFactory.deploy_nft_factory s d w slt blk ts ext =
      Except.error (MasterFactory.MFAbort.contractError
        MasterFactory.MasterFactoryError.ContractPaused, s) := by
  unfold MasterFactory.deploy_nft_factory MasterFactory.require_admin
  simp [hadm, hp]

theorem mf_nft_reentrant (s : MasterFactory.State) (d : Address) (w : WasmHash) (slt : Salt)
    (blk ts : Nat) (ext : Option Address) (hadm : s.admin = d) (hp : s.paused = false)
    (hdep : s.deploying = true) :
    MasterFactory.deploy_nft_factory s d w slt blk ts ext =
      Except.error (MasterFactory.MFAbort.contractError
        MasterFactory.MasterFactoryError.Reentrancy, s) := by
  unfold MasterFactory.deploy_nft_factory MasterFactory.require_admin
  simp [hadm, hp, hdep]

theorem mf_nft_rate_limited (s : MasterFactory.State) (d : Address) (w : WasmHash)
    (slt : Salt) (blk ts : Nat) (ext : Option Address) (hadm : s.admin = d)
    (hp : s.paused = false) (hdep : s.deploying = false)
    (hcnt : s.deploymentsInBlock blk ≥ 10) :
    MasterFactory.deploy_nft_factory s d w slt blk ts ext =
      Except.error (MasterFactory.MFAbort.contractError
        MasterFactory.MasterFactoryError.RateLimitExceeded, s) := by
  unfold MasterFactory.deploy_nft_factory MasterFactory.require_admin
  cases s
  simp_all

theorem mf_nft_dup_salt (s : MasterFactory.State) (d : Address) (w : WasmHash)
    (slt : Salt) (blk ts : Nat) (ext : Option Address) (hadm : s.admin = d)
    (hp : s.paused = false) (hdep : s.deploying = false)
    (hcnt : s.deploymentsInBlock blk < 10) (hsalt : s.usedSalts.contains slt = true) :
    MasterFactory.deploy_nft_factory s d w slt blk ts ext =
      Except.error (MasterFactory.MFAbort.contractError
        MasterFactory.MasterFactoryError.DuplicateSalt, s) := by
  have hns : ¬(s.deploymentsInBlock blk ≥ 10) := Nat.not_le.mpr hcnt
  unfold MasterFactory.deploy_nft_factory MasterFactory.require_admin
  cases s
  simp_all

theorem mf_nft_instfail (s : MasterFactory.State) (d : Address) (w : WasmHash)
    (slt : Salt) (blk ts : Nat) (e : MasterFactory.MFAbort) (s1 : MasterFactory.State)
    (h : MasterFactory.deploy_nft_factory s d w slt blk ts none = Except.error (e, s1)) :
    s1.usedSalts = s.usedSalts ∧ s1.deploymentsInBlock = s.deploymentsInBlock ∧
    s1.deployedFactories = s.deployedFactories ∧ s1.nftFactory = s.nftFactory := by
  unfold MasterFactory.deploy_nft_factory MasterFactory.require_admin at h
  iterate 8 (all_goals (try split at h))
  all_goals (try (simp at h))
  all_goals (first
    | contradiction
    | (obtain ⟨h1, h2⟩ := h; subst h2; simp))

theorem mf_gov_ok_shape (s : MasterFactory.State) (d : Address) (w : WasmHash) (slt : Salt)
    (blk ts : Nat) (ext : Option Address) (a : Address) (s1 : MasterFactory.State)
    (h : MasterFactory.deploy_governance_factory s d w slt blk ts ext = Except.ok (a, s1)) :
    s.admin = d ∧ s.paused = false ∧ s.deploying = false ∧
    s.deploymentsInBlock blk < 10 ∧ s.usedSalts.contains slt = false ∧
    s.governanceFactory.isSome = false ∧ ext = some a ∧
    s1.admin = s.admin ∧ s1.pendingAdmin = s.pendingAdmin ∧
    s1.governanceFactory = some a ∧ s1.tokenFactory = s.tokenFactory ∧
    s1.nftFactory = s.nftFactory ∧
    s1.deployedFactories = s.deployedFactories ++
      [{ address := a, factory_type := MasterFactory.FactoryType.Governance, timestamp := ts }] ∧
    s1.deploying = false ∧ s1.usedSalts = slt :: s.usedSalts ∧
    s1.paused = s.paused ∧
    s1.deploymentsInBlock =
      (fun b => if b = blk then s.deploymentsInBlock blk + 1 else s.deploymentsInBlock b) := by
  unfold MasterFactory.deploy_governance_factory MasterFactory.require_admin at h
  iterate 8 (all_goals (try split at h))
  all_goals simp_all [checkedAddU32]
  obtain ⟨h1, h2⟩ := h
  subst h2
  subst h1
  simp_all

theorem mf_gov_err_state (s : MasterFactory.State) (d : Address) (w : WasmHash) (slt : Salt)
    (blk ts : Nat) (ext : Option Address) (e : MasterFactory.MFAbort)
    (s1 : MasterFactory.State)
    (h : MasterFactory.deploy_governance_factory s d w slt blk ts ext = Except.error (e, s1)) :
    e ≠ MasterFactory.MFAbort.contractError MasterFactory.MasterFactoryError.CounterOverflow →
    e ≠ MasterFactory.MFAbort.deployFailed →
      s1 = s := by
  intro hco hdf
  unfold MasterFactory.deploy_governance_factory MasterFactory.require_admin at h
  iterate 8 (all_goals (try split at h))
  all_goals (try (simp at h))
  all_goals (obtain ⟨h1, h2⟩ := h; subst h2)
  all_goals (cases s; simp_all)

theorem mf_gov_paused (s : MasterFactory.State) (d : Address) (w : WasmHash) (slt : Salt)
    (blk ts : Nat) (ext : Option Address) (hadm : s.admin = d) (hp : s.paused = true) :
    MasterFactory.deploy_governance_factory s d w slt blk ts ext =
      Except.error (MasterFactory.MFAbort.contractError
        MasterFactory.MasterFactoryError.ContractPaused, s) := by
  unfold MasterFactory.deploy_governance_factory MasterFactory.require_admin
  simp [hadm, hp]

theorem mf_gov_reentrant (s : MasterFactory.State) (d : Address) (w : WasmHash) (slt : Salt)
    (blk ts : Nat) (ext : Option Address) (hadm : s.admin = d) (hp : s.paused = false)
    (hdep : s.deploying = true) :
    MasterFactory.deploy_governance_factory s d w slt blk ts ext =
      Except.error (MasterFactory.MFAbort.contractError
        MasterFactory.MasterFactoryError.Reentrancy, s) := by
  unfold MasterFactory.deploy_governance_factory MasterFactory.require_admin
  simp [hadm, hp, hdep]

theorem mf_gov_rate_limited (s : MasterFactory.State) (d : Address) (w : WasmHash)
    (slt : Salt) (blk ts : Nat) (ext : Option Address) (hadm : s.admin = d)
    (hp : s.paused = false) (hdep : s.deploying = false)
    (hcnt : s.deploymentsInBlock blk ≥ 10) :
    MasterFactory.deploy_governance_factory s d w slt blk ts ext =
      Except.error (MasterFactory.MFAbort.contractError
        MasterFactory.MasterFactoryError.RateLimitExceeded, s) := by
  unfold MasterFactory.deploy_governance_factory MasterFactory.require_admin
  cases s
  simp_all

theorem mf_gov_dup_salt (s : MasterFactory.State) (d : Address) (w : WasmHash)
    (slt : Salt) (blk ts : Nat) (ext : Option Address) (hadm : s.admin = d)
    (hp : s.paused = false) (hdep : s.deploying = false)
    (hcnt : s.deploymentsInBlock blk < 10) (hsalt : s.usedSalts.contains slt = true) :
    MasterFactory.deploy_governance_factory s d w slt blk ts ext =
      Except.error (MasterFactory.MFAbort.contractError
        MasterFactory.MasterFactoryError.DuplicateSalt, s) := by
  have hns : ¬(s.deploymentsInBlock blk ≥ 10) := Nat.not_le.mpr hcnt
  unfold MasterFactory.deploy_governance_factory MasterFactory.require_admin
  cases s
  simp_all

theorem mf_gov_instfail (s : MasterFactory.State) (d : Address) (w : WasmHash)
    (slt : Salt) (blk ts : Nat) (e : MasterFactory.MFAbort) (s1 : MasterFactory.State)
    (h : MasterFactory.deploy_governance_factory s d w slt blk ts none = Except.error (e, s1)) :
    s1.usedSalts = s.usedSalts ∧ s1.deploymentsInBlock = s.deploymentsInBlock ∧
    s1.deployedFactories = s.deployedFactories ∧ s1.governanceFactory = s.governanceFactory := by
  unfold MasterFactory.deploy_governance_factory MasterFactory.require_admin at h
  iterate 8 (all_goals (try split at h))
  all_goals (try (simp at h))
  all_goals (first
    | contradiction
    | (obtain ⟨h1, h2⟩ := h; subst h2; simp))

/-! Deploy-level helpers: a validation failure aborts `deploy_*` with the same
error and no state change, for any instantiation outcome. -/

theorem tf_deploy_validation_error (s : TokenFactory.State) (d : Address)
    (c : TokenFactory.TokenConfig) (ts : Nat) (ext : Option Address) (w : WasmHash)
    (e : TokenFactory.TokenFactoryError) (hp : s.paused = false)
    (hw : TokenFactory.get_wasm_for_type s c.token_type = Except.ok w)
    (hv : TokenFactory.validate_config c = Except.error e) :
    TokenFactory.deploy_token s d c ts ext =
      Except.error (TokenFactory.TFAbort.contractError e, s) := by
  unfold TokenFactory.deploy_token
  simp [hp, hw, hv]

theorem gov_deploy_validation_error (s : GovernanceFactory.State) (d : Address)
    (c : GovernanceFactory.GovernanceConfig) (ts : Nat) (ext : Option Address) (w : WasmHash)
    (e : GovernanceFactory.GovernanceFactoryError) (hp : s.paused = false)
    (hw : GovernanceFactory.get_wasm_for_type s c.governance_type = Except.ok w)
    (hv : GovernanceFactory.validate_config c = Except.error e) :
    GovernanceFactory.deploy_governance s d c ts ext =
      Except.error (GovernanceFactory.GovAbort.contractError e, s) := by
  unfold GovernanceFactory.deploy_governance
  simp [hp, hw, hv]

/-! Claim C7: numeric/cap validation rules of the token factory. -/

/-- C7 (counterexample): the claim says every Capped config with `cap = none`
is rejected with `MissingCap`, but the name/symbol/decimals/supply checks run
first: the Capped, cap-free config `c7cfg` with an empty name is rejected with
`InvalidName` instead, also at the `deploy_token` level. -/
theorem c7_counterexample :
    c7cfg.token_type = TokenFactory.TokenType.Capped ∧ c7cfg.cap = none ∧
    TokenFactory.validate_config c7cfg =
      Except.error TokenFactory.TokenFactoryError.InvalidName ∧
    TokenFactory.TokenFactoryError.InvalidName ≠ TokenFactory.TokenFactoryError.MissingCap ∧
    TokenFactory.deploy_token c7st 3 c7cfg 0 (some 9) =
      Except.error (TokenFactory.TFAbort.contractError
        TokenFactory.TokenFactoryError.InvalidName, c7st) :=
  ⟨rfl, rfl, rfl, by decide, rfl⟩

/-- C7 (amended): the token-factory validation rules hold once the checks that
precede them in `validate_config` pass (checks run in the fixed order: name
length, symbol length, name charset, symbol charset, decimals, negative
supply, supply bound, then type-specific rules).  With the generic checks
passing: a Capped config with `cap = none` is rejected with `MissingCap`; a
Capped config with `initial_supply > cap` is rejected with `CapTooLow`; a
Capped config whose cap exceeds half of `i128::MAX` (with supply not above
cap) is rejected with `SupplyTooLarge`; with the string/decimals checks
passing, a negative `initial_supply` is rejected with `NegativeSupply` and a
supply above half of `i128::MAX` with `SupplyTooLarge`; an
Allowlist/Blocklist/Pausable config supplying a cap is rejected with
`UnexpectedCap`, as is a Vault config supplying a cap once its required
fields are present; and any validation failure aborts `deploy_token` with the
same error before any instantiation attempt, leaving the state unchanged. -/
theorem c7_validation_rules :
    (∀ c : TokenFactory.TokenConfig,
      tf_generic_checks_pass c → c.token_type = TokenFactory.TokenType.Capped →
      c.cap = none →
      TokenFactory.validate_config c =
        Except.error TokenFactory.TokenFactoryError.MissingCap) ∧
    (∀ (c : TokenFactory.TokenConfig) (cap : Int),
      tf_generic_checks_pass c → c.token_type = TokenFactory.TokenType.Capped →
      c.cap = some cap → c.initial_supply > cap →
      TokenFactory.validate_config c =
        Except.error TokenFactory.TokenFactoryError.CapTooLow) ∧
    (∀ (c : TokenFactory.TokenConfig) (cap : Int),
      tf_generic_checks_pass c → c.token_type = TokenFactory.TokenType.Capped →
      c.cap = some cap → ¬(c.initial_supply > cap) → cap > TokenFactory.MAX_SUPPLY →
      TokenFactory.validate_config c =
        Except.error TokenFactory.TokenFactoryError.SupplyTooLarge) ∧
    (∀ c : TokenFactory.TokenConfig,
      tf_presupply_checks_pass c → c.initial_supply < 0 →
      TokenFactory.validate_config c =
        Except.error TokenFactory.TokenFactoryError.NegativeSupply) ∧
    (∀ c : TokenFactory.TokenConfig,
      tf_presupply_checks_pass c → ¬(c.initial_supply < 0) →
      c.initial_supply > TokenFactory.MAX_SUPPLY →
      TokenFactory.validate_config c =
        Except.error TokenFactory.TokenFactoryError.SupplyTooLarge) ∧
    (∀ c : TokenFactory.TokenConfig,
      tf_generic_checks_pass c →
      (c.token_type = TokenFactory.TokenType.Allowlist ∨
       c.token_type = TokenFactory.TokenType.Blocklist ∨
       c.token_type = TokenFactory.TokenType.Pausable) →
      c.cap.isSome = true →
      TokenFactory.validate_config c =
        Except.error TokenFactory.TokenFactoryError.UnexpectedCap) ∧
    (∀ c : TokenFactory.TokenConfig,
      tf_generic_checks_pass c → c.token_type = TokenFactory.TokenType.Vault →
      c.asset.isSome = true → c.decimals_offset.isSome = true → c.cap.isSome = true →
      TokenFactory.validate_config c =
        Except.error TokenFactory.TokenFactoryError.UnexpectedCap) ∧
    (∀ (s : TokenFactory.State) (d : Address) (c : TokenFactory.TokenConfig) (ts : Nat)
      (ext : Option Address) (w : WasmHash) (e : TokenFactory.TokenFactoryError),
      s.paused = false →
      TokenFactory.get_wasm_for_type s c.token_type = Except.ok w →
      TokenFactory.validate_config c = Except.error e →
      TokenFactory.deploy_token s d c ts ext =
        Except.error (TokenFactory.TFAbort.contractError e, s)) := by
  refine ⟨?_, ?_, ?_, ?_, ?_, ?_, ?_, ?_⟩
  · intro c hg hty hcap
    obtain ⟨⟨⟨h1, h2, h3, h4⟩, h5⟩, h6, h7⟩ := hg
    unfold TokenFactory.validate_config
    rw [if_neg h1, if_neg h2, if_neg h3, if_neg h4, if_neg h5, if_neg h6, if_neg h7, hty, hcap]
    simp
  · intro c cap hg hty hcap hlt
    obtain ⟨⟨⟨h1, h2, h3, h4⟩, h5⟩, h6, h7⟩ := hg
    unfold TokenFactory.validate_config
    rw [if_neg h1, if_neg h2, if_neg h3, if_neg h4, if_neg h5, if_neg h6, if_neg h7, hty, hcap]
    simp [hlt]
  · intro c cap hg hty hcap hle hbig
    obtain ⟨⟨⟨h1, h2, h3, h4⟩, h5⟩, h6, h7⟩ := hg
    unfold TokenFactory.validate_config
    rw [if_neg h1, if_neg h2, if_neg h3, if_neg h4, if_neg h5, if_neg h6, if_neg h7, hty, hcap]
    simp [hle, hbig]
  · intro c hg hneg
    obtain ⟨⟨h1, h2, h3, h4⟩, h5⟩ := hg
    unfold TokenFactory.validate_config
    rw [if_neg h1, if_neg h2, if_neg h3, if_neg h4, if_neg h5, if_pos hneg]
  · intro c hg hneg hbig
    obtain ⟨⟨h1, h2, h3, h4⟩, h5⟩ := hg
    unfold TokenFactory.validate_config
    rw [if_neg h1, if_neg h2, if_neg h3, if_neg h4, if_neg h5, if_neg hneg, if_pos hbig]
  · intro c hg hty hcap
    obtain ⟨⟨⟨h1, h2, h3, h4⟩, h5⟩, h6, h7⟩ := hg
    unfold TokenFactory.validate_config
    rw [if_neg h1, if_neg h2, if_neg h3, if_neg h4, if_neg h5, if_neg h6, if_neg h7]
    rcases hty with hty | hty | hty <;> rw [hty] <;> simp [hcap]
  · intro c hg hty hasset hoff hcap
    obtain ⟨⟨⟨h1, h2, h3, h4⟩, h5⟩, h6, h7⟩ := hg
    unfold TokenFactory.validate_config
    rw [if_neg h1, if_neg h2, if_neg h3, if_neg h4, if_neg h5, if_neg h6, if_neg h7, hty]
    simp_all [Option.isSome_iff_ne_none]
  · intro s d c ts ext w e hp hw hv
    exact tf_deploy_validation_error s d c ts ext w e hp hw hv

set_option maxRecDepth 4000 in
/-- C7 witness: concrete instances of the amended rules, including the
claim's `initial_supply = 2_000_000, cap = 1_000_000` case. -/
theorem c7_validation_rules_witness :
    TokenFactory.validate_config c7capcfg =
      Except.error TokenFactory.TokenFactoryError.CapTooLow ∧
    TokenFactory.deploy_token c7st 3 c7capcfg 0 (some 9) =
      Except.error (TokenFactory.TFAbort.contractError
        TokenFactory.TokenFactoryError.CapTooLow, c7st) :=
  ⟨c7_validation_rules.2.1 c7capcfg 1000000 (by decide) rfl rfl (by decide),
   c7_validation_rules.2.2.2.2.2.2.2 c7st 3 c7capcfg 0 (some 9) 7
     TokenFactory.TokenFactoryError.CapTooLow rfl rfl
     (c7_validation_rules.2.1 c7capcfg 1000000 (by decide) rfl rfl (by decide))⟩

/-! Claim C10: the undocumented decimals bound. -/

/-- C10 (counterexample): the claim says every config with `decimals > 18`
makes `deploy_token` fail with `InvalidDecimals`, but the name and symbol
checks run first: the config `c10cfg` with `decimals = 19` and an empty name
is rejected with `InvalidName` instead. -/
theorem c10_counterexample :
    c10cfg.decimals > 18 ∧
    TokenFactory.deploy_token c10st 3 c10cfg 0 (some 9) =
      Except.error (TokenFactory.TFAbort.contractError
        TokenFactory.TokenFactoryError.InvalidName, c10st) ∧
    TokenFactory.TokenFactoryError.InvalidName ≠
      TokenFactory.TokenFactoryError.InvalidDecimals :=
  ⟨by decide, rfl, by decide⟩

/-- C10 (amended): for every TokenConfig whose name/symbol length and charset
checks pass, `decimals > 18` makes `deploy_token` fail with `InvalidDecimals`
(provided the template is registered and the factory unpaused, whose checks
run first), for every instantiation outcome, with no state change — a rule the
spec's validation list does not state. -/
theorem c10_decimals_validation :
    ∀ (s : TokenFactory.State) (d : Address) (c : TokenFactory.TokenConfig) (ts : Nat)
      (ext : Option Address) (w : WasmHash),
      s.paused = false →
      TokenFactory.get_wasm_for_type s c.token_type = Except.ok w →
      tf_string_checks_pass c →
      c.decimals > 18 →
      TokenFactory.deploy_token s d c ts ext =
        Except.error (TokenFactory.TFAbort.contractError
          TokenFactory.TokenFactoryError.InvalidDecimals, s) := by
  intro s d c ts ext w hp hw hstr hdec
  obtain ⟨h1, h2, h3, h4⟩ := hstr
  have hv : TokenFactory.validate_config c =
      Except.error TokenFactory.TokenFactoryError.InvalidDecimals := by
    unfold TokenFactory.validate_config
    rw [if_neg h1, if_neg h2, if_neg h3, if_neg h4, if_pos hdec]
  exact tf_deploy_validation_error s d c ts ext w _ hp hw hv

/-- C10 witness: a valid-name, valid-symbol config with `decimals = 19` is
rejected with `InvalidDecimals`. -/
theorem c10_decimals_validation_witness :
    TokenFactory.deploy_token c10st 3 c10cfg2 0 (some 9) =
      Except.error (TokenFactory.TFAbort.contractError
        TokenFactory.TokenFactoryError.InvalidDecimals, c10st) :=
  c10_decimals_validation c10st 3 c10cfg2 0 (some 9) 7 rfl rfl (by decide) (by decide)

/-! Claim C8: multisig governance validation. -/

/-- C8: a Multisig GovernanceConfig passes `validate_config` exactly when the
owner list is present and non-empty and the threshold is present and lies in
`[1, owner_count]`; every violating config — including one with an empty owner
list, which no threshold can satisfy — is rejected with `InvalidConfig`, and a
config rejected by validation makes `deploy_governance` fail with
`InvalidConfig` before any instantiation (template registered and factory
unpaused), with no state change. -/
theorem c8_multisig_validation :
    ∀ c : GovernanceFactory.GovernanceConfig,
      c.governance_type = GovernanceFactory.GovernanceType.Multisig →
      ((GovernanceFactory.validate_config c = Except.ok ()) ↔
        (∃ (owners : List Address) (threshold : Nat),
          c.owners = some owners ∧ c.threshold = some threshold ∧
          owners ≠ [] ∧ 1 ≤ threshold ∧ threshold ≤ owners.length)) ∧
      (GovernanceFactory.validate_config c ≠ Except.ok () →
        GovernanceFactory.validate_config c =
          Except.error GovernanceFactory.GovernanceFactoryError.InvalidConfig) ∧
      (c.owners = some [] →
        GovernanceFactory.validate_config c =
          Except.error GovernanceFactory.GovernanceFactoryError.InvalidConfig) ∧
      (∀ (s : GovernanceFactory.State) (d : Address) (ts : Nat)
         (ext : Option Address) (w : WasmHash),
         s.paused = false →
         GovernanceFactory.get_wasm_for_type s c.governance_type = Except.ok w →
         GovernanceFactory.validate_config c =
           Except.error GovernanceFactory.GovernanceFactoryError.InvalidConfig →
         GovernanceFactory.deploy_governance s d c ts ext =
           Except.error (GovernanceFactory.GovAbort.contractError
             GovernanceFactory.GovernanceFactoryError.InvalidConfig, s)) := by
  intro c hty
  refine ⟨?_, ?_, ?_, ?_⟩
  · unfold GovernanceFactory.validate_config
    rw [hty]
    rcases ho : c.owners with _ | owners <;> rcases ht : c.threshold with _ | t <;>
      simp [ho, ht]
    constructor
    · rintro ⟨h1, h2⟩
      have hlen : 0 < owners.length := by omega
      exact ⟨by rintro rfl; simp at hlen, by omega, h2⟩
    · rintro ⟨h1, h2, h3⟩
      exact ⟨by omega, h3⟩
  · intro hne
    unfold GovernanceFactory.validate_config at *
    rw [hty] at *
    rcases ho : c.owners with _ | owners <;> rcases ht : c.threshold with _ | t <;>
      simp_all [ho, ht]
  · intro ho
    unfold GovernanceFactory.validate_config
    rw [hty, ho]
    rcases ht : c.threshold with _ | t <;> simp [ht]
  · intro s d ts ext w hp hw hv
    exact gov_deploy_validation_error s d c ts ext w _ hp hw hv

/-- C8 witness: the valid two-owner threshold-2 config passes validation and
the empty-owner config is rejected with `InvalidConfig`. -/
theorem c8_multisig_validation_witness :
    GovernanceFactory.validate_config c8cfg = Except.ok () ∧
    GovernanceFactory.validate_config c8badcfg =
      Except.error GovernanceFactory.GovernanceFactoryError.InvalidConfig ∧
    GovernanceFactory.deploy_governance c8st 3 c8badcfg 0 (some 9) =
      Except.error (GovernanceFactory.GovAbort.contractError
        GovernanceFactory.GovernanceFactoryError.InvalidConfig, c8st) :=
  ⟨(c8_multisig_validation c8cfg rfl).1.mpr
      ⟨[5, 6], 2, rfl, rfl, by decide, by decide, by decide⟩,
   (c8_multisig_validation c8badcfg rfl).2.2.1 rfl,
   (c8_multisig_validation c8badcfg rfl).2.2.2 c8st 3 0 (some 9) 7 rfl rfl
     ((c8_multisig_validation c8badcfg rfl).2.2.1 rfl)⟩

/-! Claim C2: ordering of bookkeeping relative to the instantiation call. -/

/-- C2 (counterexample): the claim says the MasterFactory marks the salt used
and bumps the per-window counter before the external instantiation call; but
in a concrete run in which the instantiation primitive fails, the abort state
shows the salt unmarked and the counter untouched — the bookkeeping had not
happened before the call. -/
theorem c2_counterexample :
    MasterFactory.deploy_token_factory (MasterFactory.initState 0) 0 7 1 0 0 none =
      Except.error (MasterFactory.MFAbort.deployFailed, c2s1) ∧
    c2s1.usedSalts.contains 1 = false ∧
    c2s1.deploymentsInBlock 0 = 0 :=
  ⟨rfl, rfl, rfl⟩

/-- C2 (amended): in the MasterFactory's deploy operations — exactly as in the
per-type factories — the salt-marking and rate-counter bookkeeping are
committed only after the external instantiation call succeeds: whenever the
instantiation primitive fails, the abort leaves the used-salt set, the
per-window counters, the deployed-records list and the factory slot
unchanged on all three master deploys, and leaves the per-type factory state
entirely unchanged (only the master's in-flight reentrancy flag is set at the
abort point). -/
theorem c2_bookkeeping_after_instantiation :
    (∀ (s : MasterFactory.State) (d : Address) (w : WasmHash) (slt : Salt) (blk ts : Nat)
       (e : MasterFactory.MFAbort) (s1 : MasterFactory.State),
       MasterFactory.deploy_token_factory s d w slt blk ts none = Except.error (e, s1) →
       s1.usedSalts = s.usedSalts ∧ s1.deploymentsInBlock = s.deploymentsInBlock ∧
       s1.deployedFactories = s.deployedFactories ∧ s1.tokenFactory = s.tokenFactory) ∧
    (∀ (s : MasterFactory.State) (d : Address) (w : WasmHash) (slt : Salt) (blk ts : Nat)
       (e : MasterFactory.MFAbort) (s1 : MasterFactory.State),
       MasterFactory.deploy_nft_factory s d w slt blk ts none = Except.error (e, s1) →
       s1.usedSalts = s.usedSalts ∧ s1.deploymentsInBlock = s.deploymentsInBlock ∧
       s1.deployedFactories = s.deployedFactories ∧ s1.nftFactory = s.nftFactory) ∧
    (∀ (s : MasterFactory.State) (d : Address) (w : WasmHash) (slt : Salt) (blk ts : Nat)
       (e : MasterFactory.MFAbort) (s1 : MasterFactory.State),
       MasterFactory.deploy_governance_factory s d w slt blk ts none = Except.error (e, s1) →
       s1.usedSalts = s.usedSalts ∧ s1.deploymentsInBlock = s.deploymentsInBlock ∧
       s1.deployedFactories = s.deployedFactories ∧ s1.governanceFactory = s.governanceFactory) ∧
    (∀ (s : TokenFactory.State) (d : Address) (c : TokenFactory.TokenConfig) (ts : Nat)
       (e : TokenFactory.TFAbort) (s1 : TokenFactory.State),
       TokenFactory.deploy_token s d c ts none = Except.error (e, s1) → s1 = s) ∧
    (∀ (s : NFTFactory.State) (d : Address) (c : NFTFactory.NFTConfig) (ts : Nat)
       (e : NFTFactory.NFTAbort) (s1 : NFTFactory.State),
       NFTFactory.deploy_nft s d c ts none = Except.error (e, s1) → s1 = s) ∧
    (∀ (s : GovernanceFactory.State) (d : Address) (c : GovernanceFactory.GovernanceConfig)
       (ts : Nat) (e : GovernanceFactory.GovAbort) (s1 : GovernanceFactory.State),
       GovernanceFactory.deploy_governance s d c ts none = Except.error (e, s1) → s1 = s) := by
  refine ⟨?_, ?_, ?_, ?_, ?_, ?_⟩
  · intro s d w slt blk ts e s1 h
    exact mf_token_instfail s d w slt blk ts e s1 h
  · intro s d w slt blk ts e s1 h
    exact mf_nft_instfail s d w slt blk ts e s1 h
  · intro s d w slt blk ts e s1 h
    exact mf_gov_instfail s d w slt blk ts e s1 h
  · intro s d c ts e s1 h
    exact tf_deploy_err_state s d c ts none e s1 h
  · intro s d c ts e s1 h
    unfold NFTFactory.deploy_nft at h
    repeat' split at h
    all_goals simp_all
  · intro s d c ts e s1 h
    unfold GovernanceFactory.deploy_governance at h
    repeat' split at h
    all_goals simp_all

/-- C2 witness: the amended property evaluated on a concrete failing
instantiation. -/
theorem c2_bookkeeping_witness :
    c2s1.usedSalts = (MasterFactory.initState 0).usedSalts ∧
    c2s1.deploymentsInBlock = (MasterFactory.initState 0).deploymentsInBlock ∧
    c2s1.deployedFactories = (MasterFactory.initState 0).deployedFactories ∧
    c2s1.tokenFactory = (MasterFactory.initState 0).tokenFactory :=
  c2_bookkeeping_after_instantiation.1 (MasterFactory.initState 0) 0 7 1 0 0
    MasterFactory.MFAbort.deployFailed c2s1 rfl

/-! Claim C3: salt consumed at most once; the used-salt set never shrinks. -/

/-- C3 (counterexample): after a successful deploy with salt 1, a subsequent
deploy with the same salt does not necessarily fail with `DuplicateSalt`: the
admin check runs first, so a non-admin caller reusing salt 1 gets `NotAdmin`
instead (the claim asserted `DuplicateSalt` regardless of differing other
parameters). -/
theorem c3_counterexample :
    isOkRes (MasterFactory.deploy_token_factory (MasterFactory.initState 0)
      0 7 1 0 0 (some 100)) = true ∧
    c3s1.usedSalts.contains 1 = true ∧
    MasterFactory.deploy_nft_factory c3s1 5 7 1 0 0 (some 101) =
      Except.error (MasterFactory.MFAbort.contractError
        MasterFactory.MasterFactoryError.NotAdmin, c3s1) ∧
    MasterFactory.MasterFactoryError.NotAdmin ≠
      MasterFactory.MasterFactoryError.DuplicateSalt :=
  ⟨rfl, rfl, rfl, by decide⟩

/-- C3 (amended): a successful MasterFactory deploy records its salt in the
used-salt set; once a salt is in the set no deploy of any of the three factory
types can ever succeed with it, and such a deploy fails precisely with
`DuplicateSalt` whenever it passes the admin, pause, reentrancy and rate-limit
checks that precede the salt check; moreover no MasterFactory operation ever
removes a salt from the set. -/
theorem c3_salt_consumed_once :
    (∀ (s : MasterFactory.State) (d : Address) (w : WasmHash) (slt : Salt) (blk ts : Nat)
       (ext : Option Address) (a : Address) (s1 : MasterFactory.State),
       (MasterFactory.deploy_token_factory s d w slt blk ts ext = Except.ok (a, s1) →
         s1.usedSalts = slt :: s.usedSalts) ∧
       (MasterFactory.deploy_nft_factory s d w slt blk ts ext = Except.ok (a, s1) →
         s1.usedSalts = slt :: s.usedSalts) ∧
       (MasterFactory.deploy_governance_factory s d w slt blk ts ext = Except.ok (a, s1) →
         s1.usedSalts = slt :: s.usedSalts)) ∧
    (∀ (s : MasterFactory.State) (d : Address) (w : WasmHash) (slt : Salt) (blk ts : Nat)
       (ext : Option Address),
       s.usedSalts.contains slt = true →
       isOkRes (MasterFactory.deploy_token_factory s d w slt blk ts ext) = false ∧
       isOkRes (MasterFactory.deploy_nft_factory s d w slt blk ts ext) = false ∧
       isOkRes (MasterFactory.deploy_governance_factory s d w slt blk ts ext) = false) ∧
    (∀ (s : MasterFactory.State) (d : Address) (w : WasmHash) (slt : Salt) (blk ts : Nat)
       (ext : Option Address),
       s.admin = d → s.paused = false → s.deploying = false →
       s.deploymentsInBlock blk < 10 → s.usedSalts.contains slt = true →
       MasterFactory.deploy_token_factory s d w slt blk ts ext =
         Except.error (MasterFactory.MFAbort.contractError
           MasterFactory.MasterFactoryError.DuplicateSalt, s) ∧
       MasterFactory.deploy_nft_factory s d w slt blk ts ext =
         Except.error (MasterFactory.MFAbort.contractError
           MasterFactory.MasterFactoryError.DuplicateSalt, s) ∧
       MasterFactory.deploy_governance_factory s d w slt blk ts ext =
         Except.error (MasterFactory.MFAbort.contractError
           MasterFactory.MasterFactoryError.DuplicateSalt, s)) ∧
    (∀ (s : MasterFactory.State) (x : Salt), x ∈ s.usedSalts →
      (∀ (d : Address) (w : WasmHash) (slt : Salt) (blk ts : Nat) (ext : Option Address),
        x ∈ (commitState s (MasterFactory.deploy_token_factory s d w slt blk ts ext)).usedSalts ∧
        x ∈ (commitState s (MasterFactory.deploy_nft_factory s d w slt blk ts ext)).usedSalts ∧
        x ∈ (commitState s (MasterFactory.deploy_governance_factory s d w slt blk ts ext)).usedSalts) ∧
      (∀ a : Address, x ∈ (commitState s (MasterFactory.pause s a)).usedSalts ∧
        x ∈ (commitState s (MasterFactory.unpause s a)).usedSalts ∧
        x ∈ (commitState s (MasterFactory.accept_admin_transfer s a)).usedSalts ∧
        x ∈ (commitState s (MasterFactory.cancel_admin_transfer s a)).usedSalts) ∧
      (∀ a b : Address,
        x ∈ (commitState s (MasterFactory.initiate_admin_transfer s a b)).usedSalts) ∧
      (∀ h : WasmHash, x ∈ (commitState s (MasterFactory.upgrade s h)).usedSalts)) := by
  refine ⟨?_, ?_, ?_, ?_⟩
  · intro s d w slt blk ts ext a s1
    refine ⟨fun h => ?_, fun h => ?_, fun h => ?_⟩
    · exact (mf_token_ok_shape s d w slt blk ts ext a s1 h).2.2.2.2.2.2.2.2.2.2.2.2.2.2.1
    · exact (mf_nft_ok_shape s d w slt blk ts ext a s1 h).2.2.2.2.2.2.2.2.2.2.2.2.2.2.1
    · exact (mf_gov_ok_shape s d w slt blk ts ext a s1 h).2.2.2.2.2.2.2.2.2.2.2.2.2.2.1
  · intro s d w slt blk ts ext hsalt
    refine ⟨?_, ?_, ?_⟩
    · cases hres : MasterFactory.deploy_token_factory s d w slt blk ts ext with
      | error p => simp [isOkRes]
      | ok p =>
          obtain ⟨a, s1⟩ := p
          have := (mf_token_ok_shape s d w slt blk ts ext a s1 hres).2.2.2.2.1
          simp_all
    · cases hres : MasterFactory.deploy_nft_factory s d w slt blk ts ext with
      | error p => simp [isOkRes]
      | ok p =>
          obtain ⟨a, s1⟩ := p
          have := (mf_nft_ok_shape s d w slt blk ts ext a s1 hres).2.2.2.2.1
          simp_all
    · cases hres : MasterFactory.deploy_governance_factory s d w slt blk ts ext with
      | error p => simp [isOkRes]
      | ok p =>
          obtain ⟨a, s1⟩ := p
          have := (mf_gov_ok_shape s d w slt blk ts ext a s1 hres).2.2.2.2.1
          simp_all
  · intro s d w slt blk ts ext hadm hp hdep hcnt hsalt
    exact ⟨mf_token_dup_salt s d w slt blk ts ext hadm hp hdep hcnt hsalt,
      mf_nft_dup_salt s d w slt blk ts ext hadm hp hdep hcnt hsalt,
      mf_gov_dup_salt s d w slt blk ts ext hadm hp hdep hcnt hsalt⟩
  · intro s x hx
    refine ⟨?_, ?_, ?_, ?_⟩
    · intro d w slt blk ts ext
      refine ⟨?_, ?_, ?_⟩
      · cases hres : MasterFactory.deploy_token_factory s d w slt blk ts ext with
        | error p => simpa [commitState] using hx
        | ok p =>
            obtain ⟨a, s1⟩ := p
            have := (mf_token_ok_shape s d w slt blk ts ext a s1 hres).2.2.2.2.2.2.2.2.2.2.2.2.2.2.1
            simp_all [commitState]
      · cases hres : MasterFactory.deploy_nft_factory s d w slt blk ts ext with
        | error p => simpa [commitState] using hx
        | ok p =>
            obtain ⟨a, s1⟩ := p
            have := (mf_nft_ok_shape s d w slt blk ts ext a s1 hres).2.2.2.2.2.2.2.2.2.2.2.2.2.2.1
            simp_all [commitState]
      · cases hres : MasterFactory.deploy_governance_factory s d w slt blk ts ext with
        | error p => simpa [commitState] using hx
        | ok p =>
            obtain ⟨a, s1⟩ := p
            have := (mf_gov_ok_shape s d w slt blk ts ext a s1 hres).2.2.2.2.2.2.2.2.2.2.2.2.2.2.1
            simp_all [commitState]
    · intro a
      refine ⟨?_, ?_, ?_, ?_⟩
      · simp only [MasterFactory.pause, MasterFactory.require_admin]
        split <;> simp_all [commitState]
      · simp only [MasterFactory.unpause, MasterFactory.require_admin]
        split <;> simp_all [commitState]
      · simp only [MasterFactory.accept_admin_transfer]
        split
        · simp_all [commitState]
        · split <;> simp_all [commitState]
      · simp only [MasterFactory.cancel_admin_transfer, MasterFactory.require_admin]
        split <;> simp_all [commitState]
    · intro a b
      simp only [MasterFactory.initiate_admin_transfer, MasterFactory.require_admin]
      split <;> simp_all [commitState]
    · intro h
      simpa [commitState, MasterFactory.upgrade] using hx

/-- C3 witness: on a state whose used-salt set already holds salt 1, an
admin-called, unpaused, in-budget deploy with salt 1 fails with
`DuplicateSalt`. -/
theorem c3_salt_consumed_once_witness :
    MasterFactory.deploy_token_factory c3used 0 7 1 0 0 (some 100) =
      Except.error (MasterFactory.MFAbort.contractError
        MasterFactory.MasterFactoryError.DuplicateSalt, c3used) :=
  ((c3_salt_consumed_once.2.2.1 c3used 0 7 1 0 0 (some 100)
    rfl rfl rfl (by decide) rfl).1)

/-! Claim C4: the per-window rate limit. -/

/-- Registry/slot invariant of the MasterFactory: the deployed-records list
has exactly one entry per occupied factory slot, so it can never exceed 3. -/
theorem mf_reach_slot_count (s : MasterFactory.State) (hs : MasterFactory.Reach s) :
    s.deployedFactories.length =
      (if s.tokenFactory.isSome then 1 else 0) +
      (if s.nftFactory.isSome then 1 else 0) +
      (if s.governanceFactory.isSome then 1 else 0) := by
  induction hs with
  | init a => rfl
  | deploy_token s d w slt blk ts ext _ ih =>
      cases hres : MasterFactory.deploy_token_factory s d w slt blk ts ext with
      | error p => simpa [commitState] using ih
      | ok p =>
          obtain ⟨a, s1⟩ := p
          obtain ⟨_, _, _, _, _, hslot, _, _, _, hs1slot, ho1, ho2, hlist, _⟩ :=
            mf_token_ok_shape s d w slt blk ts ext a s1 hres
          simp_all [commitState]
          try omega
  | deploy_nft s d w slt blk ts ext _ ih =>
      cases hres : MasterFactory.deploy_nft_factory s d w slt blk ts ext with
      | error p => simpa [commitState] using ih
      | ok p =>
          obtain ⟨a, s1⟩ := p
          obtain ⟨_, _, _, _, _, hslot, _, _, _, hs1slot, ho1, ho2, hlist, _⟩ :=
            mf_nft_ok_shape s d w slt blk ts ext a s1 hres
          simp_all [commitState]
          try omega
  | deploy_governance s d w slt blk ts ext _ ih =>
      cases hres : MasterFactory.deploy_governance_factory s d w slt blk ts ext with
      | error p => simpa [commitState] using ih
      | ok p =>
          obtain ⟨a, s1⟩ := p
          obtain ⟨_, _, _, _, _, hslot, _, _, _, hs1slot, ho1, ho2, hlist, _⟩ :=
            mf_gov_ok_shape s d w slt blk ts ext a s1 hres
          simp_all [commitState]
          try omega
  | pause s a _ ih =>
      simp only [MasterFactory.pause, MasterFactory.require_admin]
      split <;> simp_all [commitState]
  | unpause s a _ ih =>
      simp only [MasterFactory.unpause, MasterFactory.require_admin]
      split <;> simp_all [commitState]
  | upgrade s h _ ih =>
      simpa [commitState, MasterFactory.upgrade] using ih
  | initiate s a b _ ih =>
      simp only [MasterFactory.initiate_admin_transfer, MasterFactory.require_admin]
      split <;> simp_all [commitState]
  | accept s a _ ih =>
      cases hpa : s.pendingAdmin with
      | none => simp_all [commitState, MasterFactory.accept_admin_transfer]
      | some p =>
          by_cases hpe : p = a <;>
            simp_all [commitState, MasterFactory.accept_admin_transfer]
  | cancel s a _ ih =>
      simp only [MasterFactory.cancel_admin_transfer, MasterFactory.require_admin]
      split <;> simp_all [commitState]

/-- C4 (counterexample): the claim says 10 deployments within one block window
succeed, but each factory type deploys at most once: after the three possible
successes (token, NFT, governance, salts 1–3, all in window 0, counter now 3,
far below 10) the fourth same-window deployment attempt of every type fails
with `FactoryAlreadyDeployed`, not after ten. -/
theorem c4_counterexample :
    isOkRes (MasterFactory.deploy_token_factory (MasterFactory.initState 0)
      0 7 1 0 0 (some 100)) = true ∧
    isOkRes (MasterFactory.deploy_nft_factory c4s1 0 7 2 0 0 (some 101)) = true ∧
    isOkRes (MasterFactory.deploy_governance_factory c4s2 0 7 3 0 0 (some 102)) = true ∧
    c4s3.deploymentsInBlock 0 = 3 ∧
    MasterFactory.deploy_token_factory c4s3 0 7 4 0 0 (some 103) =
      Except.error (MasterFactory.MFAbort.contractError
        MasterFactory.MasterFactoryError.FactoryAlreadyDeployed, c4s3) ∧
    MasterFactory.deploy_nft_factory c4s3 0 7 4 0 0 (some 103) =
      Except.error (MasterFactory.MFAbort.contractError
        MasterFactory.MasterFactoryError.FactoryAlreadyDeployed, c4s3) ∧
    MasterFactory.deploy_governance_factory c4s3 0 7 4 0 0 (some 103) =
      Except.error (MasterFactory.MFAbort.contractError
        MasterFactory.MasterFactoryError.FactoryAlreadyDeployed, c4s3) :=
  ⟨rfl, rfl, rfl, rfl, rfl, rfl, rfl⟩

/-- C4 (amended): the rate-limit guard rejects a deploy with
`RateLimitExceeded` exactly when the current window's counter has already
reached 10 (the guard fires for an admin-called, unpaused, non-reentrant
deploy); each successful deploy increments only the current window's counter,
leaving every other window unchanged; every window's counter starts at 0 on a
fresh instance; but since the deployed-records list of any reachable state has
at most 3 entries (one per factory type) and the counter only counts
successful deployments, ten successful same-window deployments are
impossible. -/
theorem c4_rate_limit :
    (∀ (s : MasterFactory.State) (d : Address) (w : WasmHash) (slt : Salt) (blk ts : Nat)
       (ext : Option Address),
       s.admin = d → s.paused = false → s.deploying = false →
       s.deploymentsInBlock blk ≥ 10 →
       MasterFactory.deploy_token_factory s d w slt blk ts ext =
         Except.error (MasterFactory.MFAbort.contractError
           MasterFactory.MasterFactoryError.RateLimitExceeded, s) ∧
       MasterFactory.deploy_nft_factory s d w slt blk ts ext =
         Except.error (MasterFactory.MFAbort.contractError
           MasterFactory.MasterFactoryError.RateLimitExceeded, s) ∧
       MasterFactory.deploy_governance_factory s d w slt blk ts ext =
         Except.error (MasterFactory.MFAbort.contractError
           MasterFactory.MasterFactoryError.RateLimitExceeded, s)) ∧
    (∀ (s : MasterFactory.State) (d : Address) (w : WasmHash) (slt : Salt) (blk ts : Nat)
       (ext : Option Address) (a : Address) (s1 : MasterFactory.State),
       MasterFactory.deploy_token_factory s d w slt blk ts ext = Except.ok (a, s1) →
       s1.deploymentsInBlock blk = s.deploymentsInBlock blk + 1 ∧
       ∀ b : Nat, b ≠ blk → s1.deploymentsInBlock b = s.deploymentsInBlock b) ∧
    (∀ (a : Address) (b : Nat), (MasterFactory.initState a).deploymentsInBlock b = 0) ∧
    (∀ s : MasterFactory.State, MasterFactory.Reach s → s.deployedFactories.length ≤ 3) := by
  refine ⟨?_, ?_, ?_, ?_⟩
  · intro s d w slt blk ts ext hadm hp hdep hcnt
    exact ⟨mf_token_rate_limited s d w slt blk ts ext hadm hp hdep hcnt,
      mf_nft_rate_limited s d w slt blk ts ext hadm hp hdep hcnt,
      mf_gov_rate_limited s d w slt blk ts ext hadm hp hdep hcnt⟩
  · intro s d w slt blk ts ext a s1 h
    have hmap := (mf_token_ok_shape s d w slt blk ts ext a s1 h).2.2.2.2.2.2.2.2.2.2.2.2.2.2.2.2
    constructor
    · rw [hmap]
      simp
    · intro b hb
      rw [hmap]
      simp [hb]
  · intro a b
    rfl
  · intro s hs
    rw [mf_reach_slot_count s hs]
    split_ifs <;> omega

/-- C4 witness: on a state whose window-0 counter reads 10, an admin-called
deploy in window 0 fails with `RateLimitExceeded`; and a fresh instance's
registry length is within the bound. -/
theorem c4_rate_limit_witness :
    MasterFactory.deploy_token_factory c4rate 0 7 1 0 0 (some 100) =
      Except.error (MasterFactory.MFAbort.contractError
        MasterFactory.MasterFactoryError.RateLimitExceeded, c4rate) ∧
    (MasterFactory.initState 0).deployedFactories.length ≤ 3 :=
  ⟨(c4_rate_limit.1 c4rate 0 7 1 0 0 (some 100) rfl rfl rfl (by decide)).1,
   c4_rate_limit.2.2.2 (MasterFactory.initState 0) (MasterFactory.Reach.init 0)⟩

/-! Claim C5: pause gating and no-partial-state on early failures. -/

/-- C5 (counterexample): when the MasterFactory is paused, a deploy attempt by
a non-admin caller fails with `NotAdmin`, not `ContractPaused` — the admin
check precedes the pause check, so not every deploy attempt on every factory
fails with `ContractPaused` while paused. -/
theorem c5_counterexample :
    c5pstate.paused = true ∧
    MasterFactory.deploy_token_factory c5pstate 5 7 1 0 0 (some 9) =
      Except.error (MasterFactory.MFAbort.contractError
        MasterFactory.MasterFactoryError.NotAdmin, c5pstate) ∧
    MasterFactory.MasterFactoryError.NotAdmin ≠
      MasterFactory.MasterFactoryError.ContractPaused :=
  ⟨rfl, rfl, by decide⟩

/-- C5 (amended): when `paused = true`, every deploy attempt on the per-type
factories, and every admin-called deploy attempt on the MasterFactory (whose
admin check runs first), fails with `ContractPaused` and leaves the state —
registry, counters, salt set — exactly unchanged; more generally every
per-type-factory deploy abort other than `CounterOverflow`, and every
MasterFactory deploy abort other than `CounterOverflow` and an instantiation
failure, leaves the state exactly unchanged. -/
theorem c5_pause_gating :
    (∀ (s : TokenFactory.State) (d : Address) (c : TokenFactory.TokenConfig) (ts : Nat)
       (ext : Option Address), s.paused = true →
       TokenFactory.deploy_token s d c ts ext =
         Except.error (TokenFactory.TFAbort.contractError
           TokenFactory.TokenFactoryError.ContractPaused, s)) ∧
    (∀ (s : NFTFactory.State) (d : Address) (c : NFTFactory.NFTConfig) (ts : Nat)
       (ext : Option Address), s.paused = true →
       NFTFactory.deploy_nft s d c ts ext =
         Except.error (NFTFactory.NFTAbort.contractError
           NFTFactory.NFTFactoryError.ContractPaused, s)) ∧
    (∀ (s : GovernanceFactory.State) (d : Address) (c : GovernanceFactory.GovernanceConfig)
       (ts : Nat) (ext : Option Address), s.paused = true →
       GovernanceFactory.deploy_governance s d c ts ext =
         Except.error (GovernanceFactory.GovAbort.contractError
           GovernanceFactory.GovernanceFactoryError.ContractPaused, s)) ∧
    (∀ (s : MasterFactory.State) (d : Address) (w : WasmHash) (slt : Salt) (blk ts : Nat)
       (ext : Option Address), s.admin = d → s.paused = true →
       MasterFactory.deploy_token_factory s d w slt blk ts ext =
         Except.error (MasterFactory.MFAbort.contractError
           MasterFactory.MasterFactoryError.ContractPaused, s) ∧
       MasterFactory.deploy_nft_factory s d w slt blk ts ext =
         Except.error (MasterFactory.MFAbort.contractError
           MasterFactory.MasterFactoryError.ContractPaused, s) ∧
       MasterFactory.deploy_governance_factory s d w slt blk ts ext =
         Except.error (MasterFactory.MFAbort.contractError
           MasterFactory.MasterFactoryError.ContractPaused, s)) ∧
    (∀ (s : TokenFactory.State) (d : Address) (c : TokenFactory.TokenConfig) (ts : Nat)
       (ext : Option Address) (e : TokenFactory.TFAbort) (s1 : TokenFactory.State),
       TokenFactory.deploy_token s d c ts ext = Except.error (e, s1) → s1 = s) ∧
    (∀ (s : NFTFactory.State) (d : Address) (c : NFTFactory.NFTConfig) (ts : Nat)
       (ext : Option Address) (e : NFTFactory.NFTAbort) (s1 : NFTFactory.State),
       NFTFactory.deploy_nft s d c ts ext = Except.error (e, s1) →
       e ≠ NFTFactory.NFTAbort.contractError NFTFactory.NFTFactoryError.CounterOverflow →
       s1 = s) ∧
    (∀ (s : GovernanceFactory.State) (d : Address) (c : GovernanceFactory.GovernanceConfig)
       (ts : Nat) (ext : Option Address) (e : GovernanceFactory.GovAbort)
       (s1 : GovernanceFactory.State),
       GovernanceFactory.deploy_governance s d c ts ext = Except.error (e, s1) →
       e ≠ GovernanceFactory.GovAbort.contractError
         GovernanceFactory.GovernanceFactoryError.CounterOverflow →
       s1 = s) ∧
    (∀ (s : MasterFactory.State) (d : Address) (w : WasmHash) (slt : Salt) (blk ts : Nat)
       (ext : Option Address) (e : MasterFactory.MFAbort) (s1 : MasterFactory.State),
       e ≠ MasterFactory.MFAbort.contractError
         MasterFactory.MasterFactoryError.CounterOverflow →
       e ≠ MasterFactory.MFAbort.deployFailed →
       (MasterFactory.deploy_token_factory s d w slt blk ts ext = Except.error (e, s1) →
         s1 = s) ∧
       (MasterFactory.deploy_nft_factory s d w slt blk ts ext = Except.error (e, s1) →
         s1 = s) ∧
       (MasterFactory.deploy_governance_factory s d w slt blk ts ext = Except.error (e, s1) →
         s1 = s)) := by
  refine ⟨?_, ?_, ?_, ?_, ?_, ?_, ?_, ?_⟩
  · intro s d c ts ext hp
    unfold TokenFactory.deploy_token
    simp [hp]
  · intro s d c ts ext hp
    unfold NFTFactory.deploy_nft
    simp [hp]
  · intro s d c ts ext hp
    unfold GovernanceFactory.deploy_governance
    simp [hp]
  · intro s d w slt blk ts ext hadm hp
    exact ⟨mf_token_paused s d w slt blk ts ext hadm hp,
      mf_nft_paused s d w slt blk ts ext hadm hp,
      mf_gov_paused s d w slt blk ts ext hadm hp⟩
  · intro s d c ts ext e s1 h
    exact tf_deploy_err_state s d c ts ext e s1 h
  · intro s d c ts ext e s1 h hne
    exact nft_deploy_err_state s d c ts ext e s1 h hne
  · intro s d c ts ext e s1 h hne
    exact gov_deploy_err_state s d c ts ext e s1 h hne
  · intro s d w slt blk ts ext e s1 hco hdf
    exact ⟨fun h => mf_token_err_state s d w slt blk ts ext e s1 h hco hdf,
      fun h => mf_nft_err_state s d w slt blk ts ext e s1 h hco hdf,
      fun h => mf_gov_err_state s d w slt blk ts ext e s1 h hco hdf⟩

/-- C5 witness: concrete paused per-type factories reject a deploy with
`ContractPaused` and an unchanged state. -/
theorem c5_pause_gating_witness :
    TokenFactory.deploy_token c5tfpaused 3 c5cfg 0 (some 9) =
      Except.error (TokenFactory.TFAbort.contractError
        TokenFactory.TokenFactoryError.ContractPaused, c5tfpaused) ∧
    NFTFactory.deploy_nft c5nftpaused 3 c5nftcfg 0 (some 9) =
      Except.error (NFTFactory.NFTAbort.contractError
        NFTFactory.NFTFactoryError.ContractPaused, c5nftpaused) ∧
    GovernanceFactory.deploy_governance c5govpaused 3 c5govcfg 0 (some 9) =
      Except.error (GovernanceFactory.GovAbort.contractError
        GovernanceFactory.GovernanceFactoryError.ContractPaused, c5govpaused) :=
  ⟨c5_pause_gating.1 c5tfpaused 3 c5cfg 0 (some 9) rfl,
   c5_pause_gating.2.1 c5nftpaused 3 c5nftcfg 0 (some 9) rfl,
   c5_pause_gating.2.2.1 c5govpaused 3 c5govcfg 0 (some 9) rfl⟩

/-! Claim C6: the two-step admin transfer state machine. -/

/-- C6: starting from a state with `admin = A` and no pending admin, on both
the MasterFactory and the TokenFactory: `initiate_admin_transfer(A, B)`
followed by `accept_admin_transfer(B)` yields `admin = B` and
`pending_admin = none`; `accept_admin_transfer(C)` with `C ≠ B` after the
initiate fails with `NotPendingAdmin` and changes neither admin nor pending
admin; `accept_admin_transfer` with no pending admin fails with
`NoPendingAdmin`; and `cancel_admin_transfer(A)` after the initiate restores
`pending_admin = none` with `admin` still `A`. -/
theorem c6_two_step_transfer :
    ∀ (s : MasterFactory.State) (t : TokenFactory.State) (A B C : Address),
      s.admin = A → s.pendingAdmin = none →
      t.admin = A → t.pendingAdmin = none → C ≠ B →
      (MasterFactory.initiate_admin_transfer s A B =
        Except.ok ((), { s with pendingAdmin := some B })) ∧
      (MasterFactory.accept_admin_transfer { s with pendingAdmin := some B } B =
        Except.ok ((), { s with admin := B, pendingAdmin := none })) ∧
      (MasterFactory.accept_admin_transfer { s with pendingAdmin := some B } C =
        Except.error (MasterFactory.MasterFactoryError.NotPendingAdmin,
          { s with pendingAdmin := some B })) ∧
      (MasterFactory.accept_admin_transfer s C =
        Except.error (MasterFactory.MasterFactoryError.NoPendingAdmin, s)) ∧
      (MasterFactory.cancel_admin_transfer { s with pendingAdmin := some B } A =
        Except.ok ((), { s with pendingAdmin := none })) ∧
      ({ s with pendingAdmin := none } : MasterFactory.State).admin = A ∧
      (TokenFactory.initiate_admin_transfer t A B =
        Except.ok ((), { t with pendingAdmin := some B })) ∧
      (TokenFactory.accept_admin_transfer { t with pendingAdmin := some B } B =
        Except.ok ((), { t with admin := B, pendingAdmin := none })) ∧
      (TokenFactory.accept_admin_transfer { t with pendingAdmin := some B } C =
        Except.error (TokenFactory.TokenFactoryError.NotPendingAdmin,
          { t with pendingAdmin := some B })) ∧
      (TokenFactory.accept_admin_transfer t C =
        Except.error (TokenFactory.TokenFactoryError.NoPendingAdmin, t)) ∧
      (TokenFactory.cancel_admin_transfer { t with pendingAdmin := some B } A =
        Except.ok ((), { t with pendingAdmin := none })) ∧
      ({ t with pendingAdmin := none } : TokenFactory.State).admin = A := by
  intro s t A B C hsA hsP htA htP hCB
  refine ⟨?_, ?_, ?_, ?_, ?_, ?_, ?_, ?_, ?_, ?_, ?_, ?_⟩
  · simp [MasterFactory.initiate_admin_transfer, MasterFactory.require_admin, hsA]
  · simp [MasterFactory.accept_admin_transfer]
  · simp [MasterFactory.accept_admin_transfer, Ne.symm hCB]
  · simp [MasterFactory.accept_admin_transfer, hsP]
  · simp [MasterFactory.cancel_admin_transfer, MasterFactory.require_admin, hsA]
  · exact hsA
  · simp [TokenFactory.initiate_admin_transfer, TokenFactory.require_admin, htA]
  · simp [TokenFactory.accept_admin_transfer]
  · simp [TokenFactory.accept_admin_transfer, Ne.symm hCB]
  · simp [TokenFactory.accept_admin_transfer, htP]
  · simp [TokenFactory.cancel_admin_transfer, TokenFactory.require_admin, htA]
  · exact htA

/-- C6 witness: the transfer state machine evaluated on fresh factories with
admin 4, new admin 5 and intruder 6. -/
theorem c6_two_step_transfer_witness :
    (MasterFactory.accept_admin_transfer
        { MasterFactory.initState 4 with pendingAdmin := some 5 } 5 =
      Except.ok ((), { MasterFactory.initState 4 with admin := 5, pendingAdmin := none })) ∧
    (MasterFactory.accept_admin_transfer
        { MasterFactory.initState 4 with pendingAdmin := some 5 } 6 =
      Except.error (MasterFactory.MasterFactoryError.NotPendingAdmin,
        { MasterFactory.initState 4 with pendingAdmin := some 5 })) ∧
    (TokenFactory.accept_admin_transfer (TokenFactory.initState 4) 6 =
      Except.error (TokenFactory.TokenFactoryError.NoPendingAdmin,
        TokenFactory.initState 4)) :=
  ⟨(c6_two_step_transfer (MasterFactory.initState 4) (TokenFactory.initState 4)
      4 5 6 rfl rfl rfl rfl (by decide)).2.1,
   (c6_two_step_transfer (MasterFactory.initState 4) (TokenFactory.initState 4)
      4 5 6 rfl rfl rfl rfl (by decide)).2.2.1,
   (c6_two_step_transfer (MasterFactory.initState 4) (TokenFactory.initState 4)
      4 5 6 rfl rfl rfl rfl (by decide)).2.2.2.2.2.2.2.2.2.1⟩

/-! Claim C9: the reentrancy flag. -/

/-- C9 (counterexample): a deploy entered while the Deploying flag is already
true does not necessarily fail with `Reentrancy`: the pause check runs first,
so on a state that is both paused and mid-deploy the admin's deploy attempt
fails with `ContractPaused`. -/
theorem c9_counterexample :
    c9state.deploying = true ∧
    MasterFactory.deploy_token_factory c9state 0 7 1 0 0 (some 9) =
      Except.error (MasterFactory.MFAbort.contractError
        MasterFactory.MasterFactoryError.ContractPaused, c9state) ∧
    MasterFactory.MasterFactoryError.ContractPaused ≠
      MasterFactory.MasterFactoryError.Reentrancy :=
  ⟨rfl, rfl, by decide⟩

/-- C9 (amended): for every MasterFactory deploy started with the Deploying
flag false, the committed (durable) state at the end of the operation has the
flag false again on every exit path — success or any failure, including
failure of the external instantiation call, which the transaction rolls
back — so the flag is false in every reachable durable state; and a deploy
entered while the flag is already true fails with `Reentrancy` whenever it
passes the admin and pause checks that precede the reentrancy check. -/
theorem c9_reentrancy_guard :
    (∀ (s : MasterFactory.State) (d : Address) (w : WasmHash) (slt : Salt) (blk ts : Nat)
       (ext : Option Address), s.deploying = false →
       (commitState s (MasterFactory.deploy_token_factory s d w slt blk ts ext)).deploying
         = false ∧
       (commitState s (MasterFactory.deploy_nft_factory s d w slt blk ts ext)).deploying
         = false ∧
       (commitState s (MasterFactory.deploy_governance_factory s d w slt blk ts ext)).deploying
         = false) ∧
    (∀ s : MasterFactory.State, MasterFactory.Reach s → s.deploying = false) ∧
    (∀ (s : MasterFactory.State) (d : Address) (w : WasmHash) (slt : Salt) (blk ts : Nat)
       (ext : Option Address),
       s.admin = d → s.paused = false → s.deploying = true →
       MasterFactory.deploy_token_factory s d w slt blk ts ext =
         Except.error (MasterFactory.MFAbort.contractError
           MasterFactory.MasterFactoryError.Reentrancy, s) ∧
       MasterFactory.deploy_nft_factory s d w slt blk ts ext =
         Except.error (MasterFactory.MFAbort.contractError
           MasterFactory.MasterFactoryError.Reentrancy, s) ∧
       MasterFactory.deploy_governance_factory s d w slt blk ts ext =
         Except.error (MasterFactory.MFAbort.contractError
           MasterFactory.MasterFactoryError.Reentrancy, s)) := by
  have hdep : ∀ (s : MasterFactory.State) (d : Address) (w : WasmHash) (slt : Salt)
      (blk ts : Nat) (ext : Option Address), s.deploying = false →
      (commitState s (MasterFactory.deploy_token_factory s d w slt blk ts ext)).deploying
        = false := by
    intro s d w slt blk ts ext hs
    cases hres : MasterFactory.deploy_token_factory s d w slt blk ts ext with
    | error p => simpa [commitState] using hs
    | ok p =>
        obtain ⟨a, s1⟩ := p
        have := (mf_token_ok_shape s d w slt blk ts ext a s1 hres).2.2.2.2.2.2.2.2.2.2.2.2.2.1
        simpa [commitState] using this
  have hdepn : ∀ (s : MasterFactory.State) (d : Address) (w : WasmHash) (slt : Salt)
      (blk ts : Nat) (ext : Option Address), s.deploying = false →
      (commitState s (MasterFactory.deploy_nft_factory s d w slt blk ts ext)).deploying
        = false := by
    intro s d w slt blk ts ext hs
    cases hres : MasterFactory.deploy_nft_factory s d w slt blk ts ext with
    | error p => simpa [commitState] using hs
    | ok p =>
        obtain ⟨a, s1⟩ := p
        have := (mf_nft_ok_shape s d w slt blk ts ext a s1 hres).2.2.2.2.2.2.2.2.2.2.2.2.2.1
        simpa [commitState] using this
  have hdepg : ∀ (s : MasterFactory.State) (d : Address) (w : WasmHash) (slt : Salt)
      (blk ts : Nat) (ext : Option Address), s.deploying = false →
      (commitState s (MasterFactory.deploy_governance_factory s d w slt blk ts ext)).deploying
        = false := by
    intro s d w slt blk ts ext hs
    cases hres : MasterFactory.deploy_governance_factory s d w slt blk ts ext with
    | error p => simpa [commitState] using hs
    | ok p =>
        obtain ⟨a, s1⟩ := p
        have := (mf_gov_ok_shape s d w slt blk ts ext a s1 hres).2.2.2.2.2.2.2.2.2.2.2.2.2.1
        simpa [commitState] using this
  refine ⟨fun s d w slt blk ts ext hs =>
    ⟨hdep s d w slt blk ts ext hs, hdepn s d w slt blk ts ext hs,
     hdepg s d w slt blk ts ext hs⟩, ?_, ?_⟩
  · intro s hs
    induction hs with
    | init a => rfl
    | deploy_token s d w slt blk ts ext _ ih => exact hdep s d w slt blk ts ext ih
    | deploy_nft s d w slt blk ts ext _ ih => exact hdepn s d w slt blk ts ext ih
    | deploy_governance s d w slt blk ts ext _ ih => exact hdepg s d w slt blk ts ext ih
    | pause s a _ ih =>
        simp only [MasterFactory.pause, MasterFactory.require_admin]
        split <;> simp_all [commitState]
    | unpause s a _ ih =>
        simp only [MasterFactory.unpause, MasterFactory.require_admin]
        split <;> simp_all [commitState]
    | upgrade s h _ ih =>
        simpa [commitState, MasterFactory.upgrade] using ih
    | initiate s a b _ ih =>
        simp only [MasterFactory.initiate_admin_transfer, MasterFactory.require_admin]
        split <;> simp_all [commitState]
    | accept s a _ ih =>
        cases hpa : s.pendingAdmin with
        | none => simp_all [commitState, MasterFactory.accept_admin_transfer]
        | some p =>
            by_cases hpe : p = a <;>
              simp_all [commitState, MasterFactory.accept_admin_transfer]
    | cancel s a _ ih =>
        simp only [MasterFactory.cancel_admin_transfer, MasterFactory.require_admin]
        split <;> simp_all [commitState]
  · intro s d w slt blk ts ext hadm hp hdeping
    exact ⟨mf_token_reentrant s d w slt blk ts ext hadm hp hdeping,
      mf_nft_reentrant s d w slt blk ts ext hadm hp hdeping,
      mf_gov_reentrant s d w slt blk ts ext hadm hp hdeping⟩

/-- C9 witness: the flag is cleared in the committed state of a concrete
failed instantiation, and stays false across a successful deploy; an unpaused
mid-deploy state rejects the admin's deploy with `Reentrancy`. -/
theorem c9_reentrancy_guard_witness :
    (commitState (MasterFactory.initState 0)
      (MasterFactory.deploy_token_factory (MasterFactory.initState 0)
        0 7 1 0 0 none)).deploying = false ∧
    (commitState (MasterFactory.initState 0)
      (MasterFactory.deploy_token_factory (MasterFactory.initState 0)
        0 7 1 0 0 (some 100))).deploying = false ∧
    MasterFactory.deploy_token_factory c2s1 0 7 1 0 0 (some 100) =
      Except.error (MasterFactory.MFAbort.contractError
        MasterFactory.MasterFactoryError.Reentrancy, c2s1) :=
  ⟨(c9_reentrancy_guard.1 (MasterFactory.initState 0) 0 7 1 0 0 none rfl).1,
   (c9_reentrancy_guard.1 (MasterFactory.initState 0) 0 7 1 0 0 (some 100) rfl).1,
   (c9_reentrancy_guard.2.2 c2s1 0 7 1 0 0 (some 100) rfl rfl rfl).1⟩
